import Mathlib

set_option autoImplicit false
set_option maxHeartbeats 1000000

/-!
Shallow embedding of the ChainClient core (`zef-core/src/client.rs`) and of the
Wasmtime fuel accounting (`linera-execution/src/wasm/wasmtime.rs`).

External collaborators (the local node, the validator transport and the quorum
aggregator from `updater.rs`, which are not part of the two source files) are
modelled as oracles: every external call site of a client method receives the
result of that call as an explicit argument, in source order.  The session
state (`ChainClientState`) is threaded explicitly; every method returns the
mutated session together with its `Result`, mirroring `&mut self` semantics
where mutations performed before an early `?`/`bail!` return persist.
-/

namespace Zef

/-- Opaque identifier for a chain (`zef_base::messages::ChainId`). -/
abbrev ChainId := Nat

/-- Block height (`zef_base::messages::BlockHeight`, a `u64`). -/
abbrev BlockHeight := Nat

/-- Round number for multi-owner chains (`RoundNumber`). -/
abbrev RoundNumber := Nat

/-- Opaque cryptographic hash (`HashValue`). -/
abbrev HashValue := Nat

/-- Opaque chain owner (`Owner`, a public key). -/
abbrev Owner := Nat

/-- Opaque validator name (`ValidatorName`, a public key). -/
abbrev ValidatorName := Nat

/-- Transfer amount (`Amount`, a `u64`). -/
abbrev Amount := Nat

/-- Account balance (`Balance`, a `u128`); `Balance::from : Amount → Balance`
is the identity under this encoding and `amount ≤ balance` is the source's
`Balance::from(amount) <= balance`. -/
abbrev Balance := Nat

/-- Opaque user-data payload (`UserData`). -/
abbrev UserData := Nat

/-- Opaque bundle of incoming cross-chain messages (`MessageGroup`). -/
abbrev MessageGroup := Nat

/-- Opaque signing key pair (`KeyPair`). -/
abbrev KeyPair := Nat

/-- Opaque signature. -/
abbrev Signature := Nat

/-- Modelled from the spec: committees are mappings from validator names to
voting power (`zef_base::committee::Committee`, not under `src/`).  The client
code only passes committees around and compares them for equality, so they are
kept opaque here. -/
abbrev Committee := Nat

/-- `zef_base::execution::Address`: recipient of a transfer. -/
inductive Address
| Account (chain_id : ChainId)
| Burn
deriving DecidableEq

/-- The `zef_base::execution::Operation` variants constructed by the client. -/
inductive Operation
| Transfer (recipient : Address) (amount : Amount) (user_data : UserData)
| ChangeOwner (new_owner : Owner)
| ChangeMultipleOwners (new_owners : List Owner)
| OpenChain (id : ChainId) (owner : Owner) (committees : List Committee) (admin_id : ChainId)
| CloseChain
| NewCommittee (admin_id : ChainId) (committee : Committee)
| SubscribeToNewCommittees (id : ChainId) (committees : List Committee) (admin_id : ChainId)
deriving DecidableEq

/-- `zef_base::messages::Block`. -/
structure Block where
  chain_id : ChainId
  incoming_messages : List MessageGroup
  operations : List Operation
  height : BlockHeight
  previous_block_hash : Option HashValue
deriving DecidableEq

/-- `zef_base::messages::Value`: the two certifiable value kinds. -/
inductive Value
| ConfirmedBlock (block : Block) (state_hash : HashValue)
| ValidatedBlock (block : Block) (round : RoundNumber) (state_hash : HashValue)
deriving DecidableEq

/-- `Value::confirmed_block`. -/
def Value.confirmed_block : Value → Option Block
| .ConfirmedBlock block _ => some block
| _ => none

/-- `Value::validated_block`. -/
def Value.validated_block : Value → Option Block
| .ValidatedBlock block _ _ => some block
| _ => none

/-- `Value::state_hash`. -/
def Value.state_hash : Value → HashValue
| .ConfirmedBlock _ h => h
| .ValidatedBlock _ _ h => h

/-- `zef_base::messages::Certificate` (the `hash` field is only used for
logging in the client and is omitted). -/
structure Certificate where
  value : Value
  signatures : List (ValidatorName × Signature)
deriving DecidableEq

/-- `Certificate::new`. -/
def Certificate.new (value : Value) (signatures : List (ValidatorName × Signature)) :
    Certificate :=
  { value := value, signatures := signatures }

/-- `zef_base::messages::Vote`. -/
structure Vote where
  validator : ValidatorName
  value : Value
  signature : Signature
deriving DecidableEq

/-- `zef_base::messages::BlockAndRound`. -/
structure BlockAndRound where
  block : Block
  round : RoundNumber
deriving DecidableEq

/-- `zef_base::messages::BlockProposal` (`BlockProposal::new` signs the
content with the key pair; the signature is opaque here). -/
structure BlockProposal where
  content : BlockAndRound
  signature : Signature
deriving DecidableEq

/-- Modelled from the spec: `zef_base::manager::ChainManager` (not under
`src/`) is one of `None` (inactive), `Single(owner)` or `Multi(owners)`;
multi-owner managers track the current round, exposed by `next_round()`. -/
inductive ChainManager
| none
| single (owner : Owner)
| multi (owners : List Owner) (round : RoundNumber)
deriving DecidableEq

/-- Modelled from the spec: `ChainManager::next_round()`; single-owner chains
ignore rounds. -/
def ChainManager.next_round : ChainManager → RoundNumber
| .none => 0
| .single _ => 0
| .multi _ round => round

/-- Whether the manager is `ChainManager::Multi`. -/
def ChainManager.isMulti : ChainManager → Bool
| .multi _ _ => true
| _ => false

/-- The fields of `ChainInfo` consulted by the client. -/
structure ChainInfo where
  chain_id : ChainId
  next_block_height : BlockHeight
  block_hash : Option HashValue
  manager : ChainManager
  balance : Balance
  admin_id : Option ChainId
  queried_committees : List Committee
  queried_pending_messages : List MessageGroup
  queried_received_certificates : List Certificate
  count_received_certificates : Nat
deriving DecidableEq

/-- Error kinds surfaced by the embedded client code.  Base errors
(`zef_base::error::Error`) and `anyhow!`/`bail!` messages are merged into one
type; each `bail!`/`ensure!` message becomes its own constructor. -/
inductive Err
| InactiveChain (id : ChainId)
| InvalidBlockChaining
| ClientErrorWhileQueryingCertificate
| MissingPreviousBlock (height : BlockHeight)
/-- "Client state has a different pending block". -/
| differentPendingBlock
/-- "Unexpected block height". -/
| unexpectedBlockHeight
/-- "Unexpected previous block hash". -/
| unexpectedPreviousBlockHash
/-- "A different operation was executed in parallel (consider retrying the operation)". -/
| concurrentProposal
/-- "No key available to interact with single-owner chain". -/
| noKeyForSingleOwner
/-- "Cannot find suitable identity to interact with multi-owner chain". -/
| noIdentityForMultiOwner
/-- "Found several possible identities to interact with multi-owner chain". -/
| ambiguousIdentity
/-- "Transferred amount is not backed by sufficient funds". -/
| insufficientBalance
/-- "The local node is behind and needs synchronization". -/
| localNodeBehind
/-- "Was expecting a confirmed chain operation". -/
| expectingConfirmedBlock
/-- "Failed to communicate with a quorum of validators: err". -/
| quorumFailedWith (e : Err)
/-- "Failed to communicate with a quorum of validators (multiple errors)". -/
| quorumFailedMultiple
/-- A Rust panic: `expect`, `assert!`, `assert_eq!` or `unreachable!`. -/
| panicErr
deriving DecidableEq

/-- The session state `ChainClientState` (the transport handles, retry delays
and the local-node handle, which carry no session-visible data, live behind
the oracles instead).  `known_key_pairs` is a `BTreeMap Owner KeyPair` read
through `contains_key`/`get`; `received_certificate_trackers` is a
`HashMap ValidatorName usize` read through `get(..).unwrap_or(&0)` — both are
modelled as total lookup functions. -/
structure Sess where
  chain_id : ChainId
  block_hash : Option HashValue
  next_block_height : BlockHeight
  next_round : RoundNumber
  pending_block : Option Block
  known_key_pairs : Owner → Option KeyPair
  received_certificate_trackers : ValidatorName → Nat

/-- `HashMap::insert` on the tracker map. -/
def insertTracker (t : ValidatorName → Nat) (name : ValidatorName) (n : Nat) :
    ValidatorName → Nat :=
  fun v => if v = name then n else t v

/-- Lexicographic strict order on `(BlockHeight, RoundNumber)` pairs, the
Rust `(a, b) > (c, d)` tuple comparison. -/
def lexGT (p q : Nat × Nat) : Prop :=
  q.1 < p.1 ∨ (p.1 = q.1 ∧ q.2 < p.2)

instance (p q : Nat × Nat) : Decidable (lexGT p q) := by
  unfold lexGT; exact inferInstance

/-- The result type of `communicate_with_quorum` as used by
`communicate_chain_updates`: either the winning `state_hash` key together with
the validators' votes, or `Err(Option<Error>)` carrying the dominant error. -/
abbrev QOutcome := Except (Option Err) (Option HashValue × List (Option Vote))

/-- `updater::CommunicateAction`. -/
inductive CommunicateAction
| SubmitBlockForConfirmation (proposal : BlockProposal)
| SubmitBlockForValidation (proposal : BlockProposal)
| FinalizeBlock (certificate : Certificate)
| AdvanceToNextBlockHeight (height : BlockHeight)

/-- `matches!(action, CommunicateAction::AdvanceToNextBlockHeight(_))`. -/
def CommunicateAction.isAdvance : CommunicateAction → Bool
| .AdvanceToNextBlockHeight _ => true
| _ => false

/-- `ChainClientState::committee`: query the local node for the committees and
pop the latest one, failing with `InactiveChain` when there is none.  The
oracle `r` is the local node's response to the `query_committees` query. -/
def committee_of (chain_id : ChainId) (r : Except Err ChainInfo) : Except Err Committee :=
  match r with
  | .error e => .error e
  | .ok info =>
    match info.queried_committees.getLast? with
    | some committee => .ok committee
    | none => .error (.InactiveChain chain_id)

/-- `ChainClientState::pending_messages`: project the pending messages out of
the local node's response to the `query_pending_messages` query. -/
def pending_messages (r : Except Err ChainInfo) : Except Err (List MessageGroup) :=
  match r with
  | .error e => .error e
  | .ok info => .ok info.queried_pending_messages

/-- `ChainClientState::identity`, dispatching on the chain manager reported by
the local node (`r` is the `chain_info()` response). -/
def identity (st : Sess) (r : Except Err ChainInfo) : Except Err Owner :=
  match r with
  | .error e => .error e
  | .ok info =>
    match info.manager with
    | .single owner =>
      if (st.known_key_pairs owner).isSome then .ok owner
      else .error .noKeyForSingleOwner
    | .multi owners _ =>
      let identities := owners.filter fun owner => (st.known_key_pairs owner).isSome
      if identities.isEmpty then .error .noIdentityForMultiOwner
      else if 2 ≤ identities.length then .error .ambiguousIdentity
      else
        match identities.getLast? with
        | some owner => .ok owner
        | none => .error .panicErr
    | .none => .error (.InactiveChain st.chain_id)

/-- `ChainClientState::key_pair`: resolve the identity and fetch its key pair
(`expect("key should be known at this point")` is a panic). -/
def key_pair (st : Sess) (r : Except Err ChainInfo) : Except Err KeyPair :=
  match identity st r with
  | .error e => .error e
  | .ok owner =>
    match st.known_key_pairs owner with
    | some kp => .ok kp
    | none => .error .panicErr

/-- Advance the session tip to `info` when `(info.next_block_height,
info.manager.next_round()) > (self.next_block_height, self.next_round)`
lexicographically — the update guard shared by `prepare_chain` and
`process_certificate`. -/
def update_tip (st : Sess) (info : ChainInfo) : Sess :=
  if lexGT (info.next_block_height, info.manager.next_round)
      (st.next_block_height, st.next_round) then
    { st with
      next_block_height := info.next_block_height
      next_round := info.manager.next_round
      block_hash := info.block_hash }
  else st

/-- Oracles for `prepare_chain`: the results of `download_certificates` and of
the best-effort `synchronize_chain_state`. -/
structure PrepareEnv where
  dl : Except Err ChainInfo
  sync : Except Err ChainInfo

/-- `ChainClientState::prepare_chain`. -/
def prepare_chain (st : Sess) (env : PrepareEnv) : Sess × Except Err Unit :=
  match env.dl with
  | .error e => (st, .error e)
  | .ok info =>
    if info.next_block_height = st.next_block_height ∧ ¬ st.block_hash = info.block_hash then
      (st, .error .InvalidBlockChaining)
    else
      match (if info.manager.isMulti then env.sync else .ok info) with
      | .error e => (st, .error e)
      | .ok info2 => (update_tip st info2, .ok ())

/-- `ChainClientState::process_certificate`: hand the certificate to the local
node (`resp` is `handle_certificate(..).info`) and advance the tip when the
response is about this chain and strictly newer. -/
def process_certificate (st : Sess) (resp : Except Err ChainInfo) : Sess × Except Err Unit :=
  match resp with
  | .error e => (st, .error e)
  | .ok info =>
    if info.chain_id = st.chain_id then (update_tip st info, .ok ())
    else (st, .ok ())

/-- `ChainClientState::communicate_chain_updates`: interpret the quorum
outcome for `action`, treating `InactiveChain` on this very chain as benign
for `AdvanceToNextBlockHeight`, and assemble the certificate for the other
actions from the proposal and the winning `state_hash`. -/
def communicate_chain_updates (chain_id : ChainId) (action : CommunicateAction)
    (outcome : QOutcome) : Except Err (Option Certificate) :=
  match outcome with
  | .error (some (.InactiveChain id)) =>
    if id = chain_id ∧ action.isAdvance then .ok none
    else .error (.quorumFailedWith (.InactiveChain id))
  | .error (some e) => .error (.quorumFailedWith e)
  | .error none => .error .quorumFailedMultiple
  | .ok (state_hash, votes) =>
    let signatures : List (ValidatorName × Signature) :=
      votes.filterMap fun vote =>
        match vote with
        | some vote => some (vote.validator, vote.signature)
        | none => none
    match action with
    | .SubmitBlockForConfirmation proposal =>
      match state_hash with
      | some state_hash =>
        .ok (some (Certificate.new (.ConfirmedBlock proposal.content.block state_hash) signatures))
      | none => .error .panicErr
    | .SubmitBlockForValidation proposal =>
      match state_hash with
      | some state_hash =>
        .ok (some (Certificate.new
          (.ValidatedBlock proposal.content.block proposal.content.round state_hash) signatures))
      | none => .error .panicErr
    | .FinalizeBlock validity_certificate =>
      match validity_certificate.value with
      | .ValidatedBlock block _ state_hash =>
        .ok (some (Certificate.new (.ConfirmedBlock block state_hash) signatures))
      | _ => .error .panicErr
    | .AdvanceToNextBlockHeight _ => .ok none

/-- Oracles for `propose_block`, one per external call site in source order:
`info1` feeds `key_pair()`/`identity()`, `cinfo1` feeds `committee()`,
`info2` feeds the `chain_info()` manager dispatch, `qv`/`qf`/`qc` are the
quorum outcomes of the validation, finalization and confirmation rounds,
`pr` is `handle_certificate(..).info` inside `process_certificate`, `qa1` is
the quorum outcome of the first height broadcast, `cinfo2` the post-broadcast
`committee()` response, and `qa2` the broadcast to the new committee. -/
structure ProposeEnv where
  info1 : Except Err ChainInfo
  cinfo1 : Except Err ChainInfo
  info2 : Except Err ChainInfo
  qv : QOutcome
  qf : QOutcome
  qc : QOutcome
  pr : Except Err ChainInfo
  qa1 : QOutcome
  cinfo2 : Except Err ChainInfo
  qa2 : QOutcome

/-- The tail of `propose_block` after the final certificate is obtained
(`client.rs` lines 619-647): check the certificate confirms the proposed
block (`bail!` with the "executed in parallel" error otherwise, leaving
`pending_block` untouched), process it, clear `pending_block`, and when
`with_confirmation` is set broadcast the new height — twice if the committee
just changed. -/
def finish_propose (st : Sess) (committee : Committee) (proposal : BlockProposal)
    (final_certificate : Certificate) (with_confirmation : Bool) (env : ProposeEnv) :
    Sess × Except Err Certificate :=
  if final_certificate.value.confirmed_block = some proposal.content.block then
    match process_certificate st env.pr with
    | (st2, .error e) => (st2, .error e)
    | (st2, .ok _) =>
      let st3 : Sess := { st2 with pending_block := none }
      if with_confirmation then
        match communicate_chain_updates st3.chain_id
            (.AdvanceToNextBlockHeight st3.next_block_height) env.qa1 with
        | .error e => (st3, .error e)
        | .ok _ =>
          match committee_of st3.chain_id env.cinfo2 with
          | .error _ => (st3, .ok final_certificate)
          | .ok new_committee =>
            if new_committee = committee then (st3, .ok final_certificate)
            else
              match communicate_chain_updates st3.chain_id
                  (.AdvanceToNextBlockHeight st3.next_block_height) env.qa2 with
              | .error e => (st3, .error e)
              | .ok _ => (st3, .ok final_certificate)
      else (st3, .ok final_certificate)
  else (st, .error .concurrentProposal)

/-- `BlockProposal::new` (the signature over the content is opaque). -/
def BlockProposal.new (content : BlockAndRound) (kp : KeyPair) : BlockProposal :=
  { content := content, signature := kp }

/-- The rounds of `propose_block` for a signed `proposal`: fetch the committee
and the manager, run the one- or two-round protocol (`expect("a certificate")`
and the `assert_eq!` on the validated block are panics, as is the
`unreachable!` for an inactive chain), then finish. -/
def propose_rounds (st : Sess) (proposal : BlockProposal) (with_confirmation : Bool)
    (env : ProposeEnv) : Sess × Except Err Certificate :=
  match committee_of st.chain_id env.cinfo1 with
  | .error e => (st, .error e)
  | .ok committee =>
    match env.info2 with
    | .error e => (st, .error e)
    | .ok info2 =>
      match info2.manager with
      | .multi _ _ =>
        match communicate_chain_updates st.chain_id
            (.SubmitBlockForValidation proposal) env.qv with
        | .error e => (st, .error e)
        | .ok none => (st, .error .panicErr)
        | .ok (some certificate) =>
          if certificate.value.validated_block = some proposal.content.block then
            match communicate_chain_updates st.chain_id
                (.FinalizeBlock certificate) env.qf with
            | .error e => (st, .error e)
            | .ok none => (st, .error .panicErr)
            | .ok (some final_certificate) =>
              finish_propose st committee proposal final_certificate with_confirmation env
          else (st, .error .panicErr)
      | .single _ =>
        match communicate_chain_updates st.chain_id
            (.SubmitBlockForConfirmation proposal) env.qc with
        | .error e => (st, .error e)
        | .ok none => (st, .error .panicErr)
        | .ok (some final_certificate) =>
          finish_propose st committee proposal final_certificate with_confirmation env
      | .none => (st, .error .panicErr)

/-- The body of `propose_block` once the preconditions hold and
`pending_block` has been set: resolve the signing key, sign the proposal and
run the rounds. -/
def propose_dispatch (st : Sess) (block : Block) (next_round : RoundNumber)
    (with_confirmation : Bool) (env : ProposeEnv) : Sess × Except Err Certificate :=
  match key_pair st env.info1 with
  | .error e => (st, .error e)
  | .ok kp =>
    propose_rounds st (BlockProposal.new { block := block, round := next_round } kp)
      with_confirmation env

/-- `ChainClientState::propose_block`: enforce the three preconditions
(`pending_block` empty or equal to `block`, matching height, matching
previous hash), record the pending block, then dispatch. -/
def propose_block (st : Sess) (block : Block) (with_confirmation : Bool)
    (env : ProposeEnv) : Sess × Except Err Certificate :=
  if st.pending_block = none ∨ st.pending_block = some block then
    if block.height = st.next_block_height then
      if block.previous_block_hash = st.block_hash then
        propose_dispatch { st with pending_block := some block } block st.next_round
          with_confirmation env
      else (st, .error .unexpectedPreviousBlockHash)
    else (st, .error .unexpectedBlockHeight)
  else (st, .error .differentPendingBlock)

/-- Oracles for `receive_certificate`: `dl` is `download_certificates` on the
sender chain, `pr` feeds `process_certificate`, `cinfo` feeds `committee()`
and `adv` is the quorum outcome of the height broadcast. -/
structure ReceiveEnv where
  dl : Except Err ChainInfo
  pr : Except Err ChainInfo
  cinfo : Except Err ChainInfo
  adv : QOutcome

/-- `ChainClient::receive_certificate`. -/
def receive_certificate (st : Sess) (certificate : Certificate) (env : ReceiveEnv) :
    Sess × Except Err Unit :=
  match certificate.value.confirmed_block with
  | none => (st, .error .expectingConfirmedBlock)
  | some block =>
    match env.dl with
    | .error e => (st, .error e)
    | .ok _ =>
      match process_certificate st env.pr with
      | (st1, .error e) => (st1, .error e)
      | (st1, .ok _) =>
        match committee_of st1.chain_id env.cinfo with
        | .error e => (st1, .error e)
        | .ok _ =>
          match communicate_chain_updates block.chain_id
              (.AdvanceToNextBlockHeight (block.height + 1)) env.adv with
          | .error e => (st1, .error e)
          | .ok _ => (st1, .ok ())

/-- The inner certificate loop of `find_received_certificates`: run
`receive_certificate` (`f`) on each certificate of one validator's batch,
stopping at the first failure.  Returns the state after the processed prefix
and whether the whole batch succeeded. -/
def receive_all (f : Sess → Certificate → Sess × Except Err Unit) :
    Sess → List Certificate → Sess × Bool
| st, [] => (st, true)
| st, certificate :: rest =>
  match f st certificate with
  | (st1, .ok _) => receive_all f st1 rest
  | (st1, .error _) => (st1, false)

/-- The labelled outer loop of `find_received_certificates`: for each
validator response, process its batch; on any failure leave that validator's
tracker alone and `continue 'outer`, otherwise update the tracker to the
validator-reported `count_received_certificates`. -/
def receive_loop (f : Sess → Certificate → Sess × Except Err Unit) :
    Sess → List (ValidatorName × ChainInfo) → Sess
| st, [] => st
| st, (name, response) :: rest =>
  match receive_all f st response.queried_received_certificates with
  | (st1, true) =>
    receive_loop f
      { st1 with
        received_certificate_trackers :=
          insertTracker st1.received_certificate_trackers name
            response.count_received_certificates }
      rest
  | (st1, false) => receive_loop f st1 rest

/-- Oracles for `find_received_certificates`: `cinfo` feeds `committee()`,
`outcome` is the fan-out result of `communicate_with_quorum` (whose value
projector maps everything to `()`), carrying per-validator `ChainInfo`
responses, and `envsel` supplies the oracles of each inner
`receive_certificate` call. -/
structure FindEnv where
  cinfo : Except Err ChainInfo
  outcome : Except (Option Err) (Unit × List (ValidatorName × ChainInfo))
  envsel : Sess → Certificate → ReceiveEnv

/-- `ChainClientState::find_received_certificates`. -/
def find_received_certificates (st : Sess) (env : FindEnv) : Sess × Except Err Unit :=
  match committee_of st.chain_id env.cinfo with
  | .error e => (st, .error e)
  | .ok _ =>
    match env.outcome with
    | .ok (_, responses) =>
      (receive_loop (fun s c => receive_certificate s c (env.envsel s c)) st responses, .ok ())
    | .error (some (.InactiveChain id)) =>
      if id = st.chain_id then (st, .ok ())
      else (st, .error (.quorumFailedWith (.InactiveChain id)))
    | .error (some e) => (st, .error (.quorumFailedWith e))
    | .error none => (st, .error .quorumFailedMultiple)

/-- Oracles for `local_balance`: `info` feeds the `chain_info()` height check,
`pmInfo` feeds `pending_messages()` and `stage` is
`stage_block_execution(..).info` for the staged block. -/
structure LocalBalanceEnv where
  info : Except Err ChainInfo
  pmInfo : Except Err ChainInfo
  stage : Block → Except Err ChainInfo

/-- `ChainClient::local_balance`. -/
def local_balance (st : Sess) (env : LocalBalanceEnv) : Sess × Except Err Balance :=
  match env.info with
  | .error e => (st, .error e)
  | .ok info =>
    if info.next_block_height = st.next_block_height then
      match pending_messages env.pmInfo with
      | .error e => (st, .error e)
      | .ok msgs =>
        match env.stage
            { chain_id := st.chain_id
              incoming_messages := msgs
              operations := []
              height := st.next_block_height
              previous_block_hash := st.block_hash } with
        | .error e => (st, .error e)
        | .ok info2 => (st, .ok info2.balance)
    else (st, .error .localNodeBehind)

/-- Oracles for `synchronize_balance`. -/
structure SyncEnv where
  find : FindEnv
  prep : PrepareEnv
  lb : LocalBalanceEnv

/-- `ChainClient::synchronize_balance`. -/
def synchronize_balance (st : Sess) (env : SyncEnv) : Sess × Except Err Balance :=
  match find_received_certificates st env.find with
  | (st1, .error e) => (st1, .error e)
  | (st1, .ok _) =>
    match prepare_chain st1 env.prep with
    | (st2, .error e) => (st2, .error e)
    | (st2, .ok _) => local_balance st2 env.lb

/-- Oracles for `transfer` (and its `transfer_to_chain`/`burn` wrappers). -/
structure TransferEnv where
  sync : SyncEnv
  pmInfo : Except Err ChainInfo
  prop : ProposeEnv

/-- `ChainClientState::transfer`. -/
def transfer (st : Sess) (amount : Amount) (recipient : Address) (user_data : UserData)
    (env : TransferEnv) : Sess × Except Err Certificate :=
  match synchronize_balance st env.sync with
  | (st1, .error e) => (st1, .error e)
  | (st1, .ok balance) =>
    if amount ≤ balance then
      match pending_messages env.pmInfo with
      | .error e => (st1, .error e)
      | .ok msgs =>
        propose_block st1
          { chain_id := st1.chain_id
            incoming_messages := msgs
            operations := [.Transfer recipient amount user_data]
            height := st1.next_block_height
            previous_block_hash := st1.block_hash }
          true env.prop
    else (st1, .error .insufficientBalance)

/-- `ChainClient::transfer_to_chain`. -/
def transfer_to_chain (st : Sess) (amount : Amount) (recipient : ChainId)
    (user_data : UserData) (env : TransferEnv) : Sess × Except Err Certificate :=
  transfer st amount (.Account recipient) user_data env

/-- `ChainClient::burn`. -/
def burn (st : Sess) (amount : Amount) (user_data : UserData) (env : TransferEnv) :
    Sess × Except Err Certificate :=
  transfer st amount .Burn user_data env

/-- Oracles for `retry_pending_block`. -/
structure RetryEnv where
  find : FindEnv
  prep : PrepareEnv
  prop : ProposeEnv

/-- `ChainClient::retry_pending_block`. -/
def retry_pending_block (st : Sess) (env : RetryEnv) :
    Sess × Except Err (Option Certificate) :=
  match find_received_certificates st env.find with
  | (st1, .error e) => (st1, .error e)
  | (st1, .ok _) =>
    match prepare_chain st1 env.prep with
    | (st2, .error e) => (st2, .error e)
    | (st2, .ok _) =>
      match st2.pending_block with
      | some block =>
        match propose_block st2 block true env.prop with
        | (st3, .error e) => (st3, .error e)
        | (st3, .ok certificate) => (st3, .ok (some certificate))
      | none => (st2, .ok none)

/-- `ChainClient::clear_pending_block`. -/
def clear_pending_block (st : Sess) : Sess :=
  { st with pending_block := none }

/-- Oracles for `transfer_to_chain_unsafe_unconfirmed`. -/
structure UnsafeEnv where
  prep : PrepareEnv
  pmInfo : Except Err ChainInfo
  prop : ProposeEnv

/-- `ChainClient::transfer_to_chain_unsafe_unconfirmed`: no balance check and
`with_confirmation = false`. -/
def transfer_to_chain_unsafe_unconfirmed (st : Sess) (amount : Amount)
    (recipient : ChainId) (user_data : UserData) (env : UnsafeEnv) :
    Sess × Except Err Certificate :=
  match prepare_chain st env.prep with
  | (st1, .error e) => (st1, .error e)
  | (st1, .ok _) =>
    match pending_messages env.pmInfo with
    | .error e => (st1, .error e)
    | .ok msgs =>
      propose_block st1
        { chain_id := st1.chain_id
          incoming_messages := msgs
          operations := [.Transfer (.Account recipient) amount user_data]
          height := st1.next_block_height
          previous_block_hash := st1.block_hash }
        false env.prop

/-- One step of the client API, bundling each operation with the oracle
responses of its external calls. -/
inductive ClientOp
| prepare (env : PrepareEnv)
| propose (block : Block) (with_confirmation : Bool) (env : ProposeEnv)
| processCert (resp : Except Err ChainInfo)
| receiveCert (certificate : Certificate) (env : ReceiveEnv)
| findReceived (env : FindEnv)
| syncBalance (env : SyncEnv)
| localBalance (env : LocalBalanceEnv)
| transferToChain (amount : Amount) (recipient : ChainId) (user_data : UserData) (env : TransferEnv)
| burnOp (amount : Amount) (user_data : UserData) (env : TransferEnv)
| unsafeTransfer (amount : Amount) (recipient : ChainId) (user_data : UserData) (env : UnsafeEnv)
| retryPending (env : RetryEnv)
| clearPending

/-- Run one client operation and keep the resulting session state. -/
def runOp : ClientOp → Sess → Sess
| .prepare env, st => (prepare_chain st env).1
| .propose block wc env, st => (propose_block st block wc env).1
| .processCert resp, st => (process_certificate st resp).1
| .receiveCert certificate env, st => (receive_certificate st certificate env).1
| .findReceived env, st => (find_received_certificates st env).1
| .syncBalance env, st => (synchronize_balance st env).1
| .localBalance env, st => (local_balance st env).1
| .transferToChain amount recipient user_data env, st =>
  (transfer_to_chain st amount recipient user_data env).1
| .burnOp amount user_data env, st => (burn st amount user_data env).1
| .unsafeTransfer amount recipient user_data env, st =>
  (transfer_to_chain_unsafe_unconfirmed st amount recipient user_data env).1
| .retryPending env, st => (retry_pending_block st env).1
| .clearPending, st => clear_pending_block st

/-- The per-validator responses carried by a fan-out outcome (empty when the
fan-out failed). -/
def responsesOf (outcome : Except (Option Err) (Unit × List (ValidatorName × ChainInfo))) :
    List (ValidatorName × ChainInfo) :=
  match outcome with
  | .ok (_, responses) => responses
  | .error _ => []

/-- Every response in the fan-out outcome reports a received-certificate count
at least as large as the session's current tracker for that validator (true of
honest validators, since the query excludes the first tracker-many
certificates). -/
def countsOk (st : Sess)
    (outcome : Except (Option Err) (Unit × List (ValidatorName × ChainInfo))) : Prop :=
  ∀ p ∈ responsesOf outcome,
    st.received_certificate_trackers p.1 ≤ p.2.count_received_certificates

instance (st : Sess)
    (outcome : Except (Option Err) (Unit × List (ValidatorName × ChainInfo))) :
    Decidable (countsOk st outcome) := by
  unfold countsOk; exact List.decidableBAll _ _

/-- `countsOk` for the fan-out embedded in a client operation, if any;
in every such operation `find_received_certificates` runs first, so the
condition is stated against the initial session state. -/
def OpCountsOk : ClientOp → Sess → Prop
| .findReceived env, st => countsOk st env.outcome
| .syncBalance env, st => countsOk st env.find.outcome
| .transferToChain _ _ _ env, st => countsOk st env.sync.find.outcome
| .burnOp _ _ env, st => countsOk st env.sync.find.outcome
| .retryPending env, st => countsOk st env.find.outcome
| _, _ => True

instance (op : ClientOp) (st : Sess) : Decidable (OpCountsOk op st) := by
  unfold OpCountsOk
  cases op <;> exact inferInstance

/-- None of the direct local-node oracles of
`transfer_to_chain_unsafe_unconfirmed` reports the insufficient-funds error
(the local node never produces that error; it only arises from the client's
own balance check). -/
def NoIB (env : UnsafeEnv) : Prop :=
  ¬ env.prep.dl = .error .insufficientBalance
  ∧ ¬ env.prep.sync = .error .insufficientBalance
  ∧ ¬ env.pmInfo = .error .insufficientBalance
  ∧ ¬ env.prop.info1 = .error .insufficientBalance
  ∧ ¬ env.prop.cinfo1 = .error .insufficientBalance
  ∧ ¬ env.prop.info2 = .error .insufficientBalance
  ∧ ¬ env.prop.pr = .error .insufficientBalance

/-- Concrete key-pair table: owner 4 holds key 44. -/
def kkpA : Owner → Option KeyPair := fun owner => if owner = 4 then some 44 else none

/-- Concrete tracker map: validator 7 is at cursor 5. -/
def trkA : ValidatorName → Nat := fun v => if v = 7 then 5 else 0

/-- Concrete session on chain 1 at height 0. -/
def sessA : Sess :=
  { chain_id := 1
    block_hash := none
    next_block_height := 0
    next_round := 0
    pending_block := none
    known_key_pairs := kkpA
    received_certificate_trackers := trkA }

/-- Concrete chain info matching `sessA`: single-owner chain owned by 4. -/
def infoA : ChainInfo :=
  { chain_id := 1
    next_block_height := 0
    block_hash := none
    manager := .single 4
    balance := 0
    admin_id := some 1
    queried_committees := [0]
    queried_pending_messages := []
    queried_received_certificates := []
    count_received_certificates := 0 }

/-- Concrete empty block at the tip of `sessA`. -/
def blockA : Block :=
  { chain_id := 1, incoming_messages := [], operations := [], height := 0,
    previous_block_hash := none }

/-- A structurally different block. -/
def blockB : Block :=
  { chain_id := 1, incoming_messages := [], operations := [], height := 9,
    previous_block_hash := none }

/-- Concrete confirmed certificate for `blockA`. -/
def certA : Certificate := { value := .ConfirmedBlock blockA 5, signatures := [] }

/-- Concrete confirmed certificate for a different block. -/
def certOther : Certificate := { value := .ConfirmedBlock blockB 5, signatures := [] }

/-- Concrete proposal of `blockA` at round 0 signed with key 44. -/
def proposalA : BlockProposal := BlockProposal.new { block := blockA, round := 0 } 44

/-- `sessA` with `blockA` pending. -/
def sessPend : Sess := { sessA with pending_block := some blockA }

/-- Chain info after confirming one block on chain 1. -/
def infoAdv : ChainInfo := { infoA with next_block_height := 1 }

/-- Concrete receive oracles (benign). -/
def recvEnvA : ReceiveEnv :=
  { dl := .ok infoA, pr := .ok infoA, cinfo := .ok infoA, adv := .ok (none, []) }

/-- Concrete propose oracles driving the single-owner happy path. -/
def penvA : ProposeEnv :=
  { info1 := .ok infoA
    cinfo1 := .ok infoA
    info2 := .ok infoA
    qv := .ok (none, [])
    qf := .ok (none, [])
    qc := .ok (some 5, [])
    pr := .ok infoAdv
    qa1 := .ok (none, [])
    cinfo2 := .ok infoA
    qa2 := .ok (none, []) }

/-- Concrete prepare oracles reporting exactly the tip of `sessA`. -/
def prepEnvA : PrepareEnv := { dl := .ok infoA, sync := .ok infoA }

/-- Concrete fan-out with no responses. -/
def findEnvOk : FindEnv :=
  { cinfo := .ok infoA, outcome := .ok ((), []), envsel := fun _ _ => recvEnvA }

/-- Concrete fan-out where validator 7 reports count 0 (below the cursor 5 of
`sessA`) with an empty certificate batch. -/
def findEnvCex : FindEnv :=
  { cinfo := .ok infoA, outcome := .ok ((), [(7, infoA)]), envsel := fun _ _ => recvEnvA }

/-- Concrete fan-out where validator 7 honestly reports count 9. -/
def findEnvNine : FindEnv :=
  { cinfo := .ok infoA
    outcome := .ok ((), [(7, { infoA with count_received_certificates := 9 })])
    envsel := fun _ _ => recvEnvA }

/-- Concrete fan-out failing with `InactiveChain` on the session's own chain. -/
def findEnvInactive : FindEnv :=
  { cinfo := .ok infoA
    outcome := .error (some (.InactiveChain 1))
    envsel := fun _ _ => recvEnvA }

/-- Concrete retry oracles for `sessPend`. -/
def renvA : RetryEnv := { find := findEnvOk, prep := prepEnvA, prop := penvA }

/-- A receive function that always fails (used to exercise the skip path). -/
def f0 : Sess → Certificate → Sess × Except Err Unit := fun s _ => (s, .error .panicErr)

/-- Chain info whose received-certificate batch contains one certificate. -/
def infoWithCert : ChainInfo :=
  { infoA with queried_received_certificates := [certA], count_received_certificates := 3 }

/-- Concrete local-balance oracles reporting balance 5. -/
def lbEnvA : LocalBalanceEnv :=
  { info := .ok infoA
    pmInfo := .ok infoA
    stage := fun _ => .ok { infoA with balance := 5 } }

/-- Concrete synchronize-balance oracles yielding balance 5. -/
def syncEnvA : SyncEnv := { find := findEnvOk, prep := prepEnvA, lb := lbEnvA }

/-- Concrete transfer oracles over `syncEnvA`. -/
def tenvA : TransferEnv := { sync := syncEnvA, pmInfo := .ok infoA, prop := penvA }

/-- Concrete unsafe-transfer oracles. -/
def uenvA : UnsafeEnv := { prep := prepEnvA, pmInfo := .ok infoA, prop := penvA }

/-- Concrete local-balance oracles where the local node is one block ahead of
the session. -/
def lbEnvBehind : LocalBalanceEnv :=
  { info := .ok infoAdv, pmInfo := .ok infoA, stage := fun _ => .ok infoA }

end Zef

namespace Wasmtime

/-- `ExecutionError` of `linera-execution` (opaque variants), together with a
constructor standing for a Rust panic (`assert!`/`expect`). -/
inductive ExecutionError
| wasmTrap (code : Nat)
| runtimeFault (code : Nat)
| panicked
deriving DecidableEq

/-- The fuel-relevant state of `WasmtimeContractInstance`: the fuel stored in
the Wasmtime engine (modelled from the spec / the Wasmtime API: `add_fuel(n)`
adds `n`, `consume_fuel(n)` subtracts `n` and returns the remainder, and
execution only ever consumes) and the `initial_fuel` field. -/
structure WasmtimeContractInstance where
  engine_fuel : Nat
  initial_fuel : Nat
deriving DecidableEq

/-- `WasmtimeContractInstance::configure_initial_fuel`: read the runtime's
`remaining_fuel()`, record it as `initial_fuel`, then adjust the engine fuel
to exactly that value (`add_fuel(1)`, read `consume_fuel(0)`, then consume or
add the difference). -/
def configure_initial_fuel (inst : WasmtimeContractInstance)
    (remaining_fuel : Except ExecutionError Nat) :
    Except ExecutionError WasmtimeContractInstance :=
  match remaining_fuel with
  | .error e => .error e
  | .ok fuel =>
    let existing_fuel := inst.engine_fuel + 1
    if existing_fuel > fuel then
      .ok { engine_fuel := existing_fuel - (existing_fuel - fuel), initial_fuel := fuel }
    else
      .ok { engine_fuel := existing_fuel + (fuel - existing_fuel), initial_fuel := fuel }

/-- `WasmtimeContractInstance::persist_remaining_fuel`: read the fuel left in
the engine, `assert!(initial_fuel >= remaining_fuel)` (a panic otherwise), and
charge the runtime via `consume_fuel` with exactly the delta.  `consume_fuel`
is the runtime's charging oracle. -/
def persist_remaining_fuel (inst : WasmtimeContractInstance)
    (consume_fuel : Nat → Except ExecutionError Unit) : Except ExecutionError Unit :=
  if inst.initial_fuel < inst.engine_fuel then .error .panicked
  else consume_fuel (inst.initial_fuel - inst.engine_fuel)

/-- `UserContract::instantiate` for `WasmtimeContractInstance`: configure
fuel, run the entrypoint (which consumes `consumed` units of engine fuel and
yields `entry_result`), persist the remaining fuel, then surface the
entrypoint result. -/
def instantiate (inst : WasmtimeContractInstance)
    (remaining_fuel : Except ExecutionError Nat) (consumed : Nat)
    (entry_result : Except ExecutionError Unit)
    (consume_fuel : Nat → Except ExecutionError Unit) :
    WasmtimeContractInstance × Except ExecutionError Unit :=
  match configure_initial_fuel inst remaining_fuel with
  | .error e => (inst, .error e)
  | .ok inst1 =>
    let inst2 : WasmtimeContractInstance :=
      { inst1 with engine_fuel := inst1.engine_fuel - consumed }
    match persist_remaining_fuel inst2 consume_fuel with
    | .error e => (inst2, .error e)
    | .ok _ =>
      match entry_result with
      | .error e => (inst2, .error e)
      | .ok u => (inst2, .ok u)

/-- `UserContract::execute_operation` (same fuel pattern, byte-vector
result). -/
def execute_operation (inst : WasmtimeContractInstance)
    (remaining_fuel : Except ExecutionError Nat) (consumed : Nat)
    (entry_result : Except ExecutionError Nat)
    (consume_fuel : Nat → Except ExecutionError Unit) :
    WasmtimeContractInstance × Except ExecutionError Nat :=
  match configure_initial_fuel inst remaining_fuel with
  | .error e => (inst, .error e)
  | .ok inst1 =>
    let inst2 : WasmtimeContractInstance :=
      { inst1 with engine_fuel := inst1.engine_fuel - consumed }
    match persist_remaining_fuel inst2 consume_fuel with
    | .error e => (inst2, .error e)
    | .ok _ =>
      match entry_result with
      | .error e => (inst2, .error e)
      | .ok bytes => (inst2, .ok bytes)

/-- `UserContract::execute_message` (same fuel pattern). -/
def execute_message (inst : WasmtimeContractInstance)
    (remaining_fuel : Except ExecutionError Nat) (consumed : Nat)
    (entry_result : Except ExecutionError Unit)
    (consume_fuel : Nat → Except ExecutionError Unit) :
    WasmtimeContractInstance × Except ExecutionError Unit :=
  match configure_initial_fuel inst remaining_fuel with
  | .error e => (inst, .error e)
  | .ok inst1 =>
    let inst2 : WasmtimeContractInstance :=
      { inst1 with engine_fuel := inst1.engine_fuel - consumed }
    match persist_remaining_fuel inst2 consume_fuel with
    | .error e => (inst2, .error e)
    | .ok _ =>
      match entry_result with
      | .error e => (inst2, .error e)
      | .ok u => (inst2, .ok u)

/-- `UserContract::finalize` (same fuel pattern, no argument). -/
def finalize (inst : WasmtimeContractInstance)
    (remaining_fuel : Except ExecutionError Nat) (consumed : Nat)
    (entry_result : Except ExecutionError Unit)
    (consume_fuel : Nat → Except ExecutionError Unit) :
    WasmtimeContractInstance × Except ExecutionError Unit :=
  match configure_initial_fuel inst remaining_fuel with
  | .error e => (inst, .error e)
  | .ok inst1 =>
    let inst2 : WasmtimeContractInstance :=
      { inst1 with engine_fuel := inst1.engine_fuel - consumed }
    match persist_remaining_fuel inst2 consume_fuel with
    | .error e => (inst2, .error e)
    | .ok _ =>
      match entry_result with
      | .error e => (inst2, .error e)
      | .ok u => (inst2, .ok u)

/-- A runtime charging oracle that always succeeds. -/
def cfOk : Nat → Except ExecutionError Unit := fun _ => .ok ()

end Wasmtime

namespace Zef

theorem update_tip_pending (st : Sess) (info : ChainInfo) :
    (update_tip st info).pending_block = st.pending_block := by
  unfold update_tip; split <;> rfl

theorem update_tip_trackers (st : Sess) (info : ChainInfo) :
    (update_tip st info).received_certificate_trackers = st.received_certificate_trackers := by
  unfold update_tip; split <;> rfl

theorem update_tip_mono (st : Sess) (info : ChainInfo) :
    st.next_block_height ≤ (update_tip st info).next_block_height := by
  unfold update_tip
  split
  · rename_i h
    show st.next_block_height ≤ info.next_block_height
    rcases h with h | ⟨h, _⟩
    · exact Nat.le_of_lt h
    · exact Nat.le_of_eq h.symm
  · exact Nat.le_refl _

theorem process_certificate_pending (st : Sess) (resp : Except Err ChainInfo) :
    ((process_certificate st resp).1).pending_block = st.pending_block := by
  unfold process_certificate
  cases resp with
  | error e => rfl
  | ok info =>
    by_cases h : info.chain_id = st.chain_id
    · simp [h, update_tip_pending]
    · simp [h]

theorem process_certificate_trackers (st : Sess) (resp : Except Err ChainInfo) :
    ((process_certificate st resp).1).received_certificate_trackers
      = st.received_certificate_trackers := by
  unfold process_certificate
  cases resp with
  | error e => rfl
  | ok info =>
    by_cases h : info.chain_id = st.chain_id
    · simp [h, update_tip_trackers]
    · simp [h]

theorem process_certificate_mono (st : Sess) (resp : Except Err ChainInfo) :
    st.next_block_height ≤ ((process_certificate st resp).1).next_block_height := by
  unfold process_certificate
  cases resp with
  | error e => exact Nat.le_refl _
  | ok info =>
    by_cases h : info.chain_id = st.chain_id
    · simp only [h, if_pos]
      exact update_tip_mono st info
    · simp [h]

theorem prepare_chain_pending (st : Sess) (env : PrepareEnv) :
    ((prepare_chain st env).1).pending_block = st.pending_block := by
  unfold prepare_chain
  cases env.dl with
  | error e => rfl
  | ok info =>
    dsimp only
    split
    · rfl
    · cases h2 : (if info.manager.isMulti then env.sync else Except.ok info) with
      | error e => rfl
      | ok info2 => exact update_tip_pending st info2

theorem prepare_chain_trackers (st : Sess) (env : PrepareEnv) :
    ((prepare_chain st env).1).received_certificate_trackers
      = st.received_certificate_trackers := by
  unfold prepare_chain
  cases env.dl with
  | error e => rfl
  | ok info =>
    dsimp only
    split
    · rfl
    · cases h2 : (if info.manager.isMulti then env.sync else Except.ok info) with
      | error e => rfl
      | ok info2 => exact update_tip_trackers st info2

theorem prepare_chain_mono (st : Sess) (env : PrepareEnv) :
    st.next_block_height ≤ ((prepare_chain st env).1).next_block_height := by
  unfold prepare_chain
  cases env.dl with
  | error e => exact Nat.le_refl _
  | ok info =>
    dsimp only
    split
    · exact Nat.le_refl _
    · cases h2 : (if info.manager.isMulti then env.sync else Except.ok info) with
      | error e => exact Nat.le_refl _
      | ok info2 => exact update_tip_mono st info2

theorem finish_propose_trackers (st : Sess) (committee : Committee)
    (proposal : BlockProposal) (final_certificate : Certificate)
    (with_confirmation : Bool) (env : ProposeEnv) :
    ((finish_propose st committee proposal final_certificate with_confirmation env).1).received_certificate_trackers
      = st.received_certificate_trackers := by
  unfold finish_propose
  split
  · cases hpr : process_certificate st env.pr with
    | mk st2 r2 =>
      have h2 : st2.received_certificate_trackers = st.received_certificate_trackers := by
        have h := process_certificate_trackers st env.pr
        rw [hpr] at h; exact h
      cases r2 with
      | error e => exact h2
      | ok u =>
        dsimp only
        split
        · split
          · exact h2
          · split
            · exact h2
            · split
              · exact h2
              · split
                · exact h2
                · exact h2
        · exact h2
  · rfl

theorem finish_propose_mono (st : Sess) (committee : Committee)
    (proposal : BlockProposal) (final_certificate : Certificate)
    (with_confirmation : Bool) (env : ProposeEnv) :
    st.next_block_height
      ≤ ((finish_propose st committee proposal final_certificate with_confirmation env).1).next_block_height := by
  unfold finish_propose
  split
  · cases hpr : process_certificate st env.pr with
    | mk st2 r2 =>
      have h2 : st.next_block_height ≤ st2.next_block_height := by
        have h := process_certificate_mono st env.pr
        rw [hpr] at h; exact h
      cases r2 with
      | error e => exact h2
      | ok u =>
        dsimp only
        split
        · split
          · exact h2
          · split
            · exact h2
            · split
              · exact h2
              · split
                · exact h2
                · exact h2
        · exact h2
  · exact Nat.le_refl _

theorem propose_rounds_trackers (st : Sess) (proposal : BlockProposal)
    (with_confirmation : Bool) (env : ProposeEnv) :
    ((propose_rounds st proposal with_confirmation env).1).received_certificate_trackers
      = st.received_certificate_trackers := by
  unfold propose_rounds
  split
  · rfl
  · split
    · rfl
    · split
      · split
        · rfl
        · rfl
        · split
          · split
            · rfl
            · rfl
            · exact finish_propose_trackers ..
          · rfl
      · split
        · rfl
        · rfl
        · exact finish_propose_trackers ..
      · rfl

theorem propose_rounds_mono (st : Sess) (proposal : BlockProposal)
    (with_confirmation : Bool) (env : ProposeEnv) :
    st.next_block_height
      ≤ ((propose_rounds st proposal with_confirmation env).1).next_block_height := by
  unfold propose_rounds
  split
  · exact Nat.le_refl _
  · split
    · exact Nat.le_refl _
    · split
      · split
        · exact Nat.le_refl _
        · exact Nat.le_refl _
        · split
          · split
            · exact Nat.le_refl _
            · exact Nat.le_refl _
            · exact finish_propose_mono ..
          · exact Nat.le_refl _
      · split
        · exact Nat.le_refl _
        · exact Nat.le_refl _
        · exact finish_propose_mono ..
      · exact Nat.le_refl _

theorem propose_dispatch_trackers (st : Sess) (block : Block) (next_round : RoundNumber)
    (with_confirmation : Bool) (env : ProposeEnv) :
    ((propose_dispatch st block next_round with_confirmation env).1).received_certificate_trackers
      = st.received_certificate_trackers := by
  unfold propose_dispatch
  split
  · rfl
  · exact propose_rounds_trackers ..

theorem propose_dispatch_mono (st : Sess) (block : Block) (next_round : RoundNumber)
    (with_confirmation : Bool) (env : ProposeEnv) :
    st.next_block_height
      ≤ ((propose_dispatch st block next_round with_confirmation env).1).next_block_height := by
  unfold propose_dispatch
  split
  · exact Nat.le_refl _
  · exact propose_rounds_mono ..

theorem propose_block_trackers (st : Sess) (block : Block) (with_confirmation : Bool)
    (env : ProposeEnv) :
    ((propose_block st block with_confirmation env).1).received_certificate_trackers
      = st.received_certificate_trackers := by
  unfold propose_block
  split
  · split
    · split
      · exact propose_dispatch_trackers { st with pending_block := some block } block
          st.next_round with_confirmation env
      · rfl
    · rfl
  · rfl

theorem propose_block_mono (st : Sess) (block : Block) (with_confirmation : Bool)
    (env : ProposeEnv) :
    st.next_block_height
      ≤ ((propose_block st block with_confirmation env).1).next_block_height := by
  unfold propose_block
  split
  · split
    · split
      · exact propose_dispatch_mono { st with pending_block := some block } block
          st.next_round with_confirmation env
      · exact Nat.le_refl _
    · exact Nat.le_refl _
  · exact Nat.le_refl _

end Zef

namespace Zef

theorem process_certificate_state (st : Sess) (resp : Except Err ChainInfo) :
    ((process_certificate st resp).1).pending_block = st.pending_block
    ∧ ((process_certificate st resp).1).received_certificate_trackers
        = st.received_certificate_trackers
    ∧ st.next_block_height ≤ ((process_certificate st resp).1).next_block_height :=
  ⟨process_certificate_pending st resp, process_certificate_trackers st resp,
    process_certificate_mono st resp⟩

theorem receive_certificate_state (st : Sess) (certificate : Certificate)
    (env : ReceiveEnv) :
    ((receive_certificate st certificate env).1).pending_block = st.pending_block
    ∧ ((receive_certificate st certificate env).1).received_certificate_trackers
        = st.received_certificate_trackers
    ∧ st.next_block_height
        ≤ ((receive_certificate st certificate env).1).next_block_height := by
  unfold receive_certificate
  split
  · exact ⟨rfl, rfl, Nat.le_refl _⟩
  · split
    · exact ⟨rfl, rfl, Nat.le_refl _⟩
    · split
      · rename_i st1 e heq
        have h := process_certificate_state st env.pr
        rw [heq] at h
        exact h
      · rename_i st1 u heq
        have h := process_certificate_state st env.pr
        rw [heq] at h
        split
        · exact h
        · split
          · exact h
          · exact h

theorem receive_all_trackers (f : Sess → Certificate → Sess × Except Err Unit)
    (hft : ∀ s c, ((f s c).1).received_certificate_trackers
      = s.received_certificate_trackers) :
    ∀ (l : List Certificate) (st : Sess),
      ((receive_all f st l).1).received_certificate_trackers
        = st.received_certificate_trackers := by
  intro l
  induction l with
  | nil => intro st; rfl
  | cons c rest ih =>
    intro st
    unfold receive_all
    cases hfc : f st c with
    | mk s1 r1 =>
      have h1 := hft st c
      rw [hfc] at h1
      cases r1 with
      | ok u => exact (ih s1).trans h1
      | error e => exact h1

theorem receive_all_state (f : Sess → Certificate → Sess × Except Err Unit)
    (hf : ∀ s c, ((f s c).1).pending_block = s.pending_block
      ∧ ((f s c).1).received_certificate_trackers = s.received_certificate_trackers
      ∧ s.next_block_height ≤ ((f s c).1).next_block_height) :
    ∀ (l : List Certificate) (st : Sess),
      ((receive_all f st l).1).pending_block = st.pending_block
      ∧ ((receive_all f st l).1).received_certificate_trackers
          = st.received_certificate_trackers
      ∧ st.next_block_height ≤ ((receive_all f st l).1).next_block_height := by
  intro l
  induction l with
  | nil => intro st; exact ⟨rfl, rfl, Nat.le_refl _⟩
  | cons c rest ih =>
    intro st
    unfold receive_all
    cases hfc : f st c with
    | mk s1 r1 =>
      have h1 := hf st c
      rw [hfc] at h1
      cases r1 with
      | ok u =>
        have h2 := ih s1
        exact ⟨h2.1.trans h1.1, h2.2.1.trans h1.2.1, h1.2.2.trans h2.2.2⟩
      | error e => exact h1

theorem receive_loop_state (f : Sess → Certificate → Sess × Except Err Unit)
    (hf : ∀ s c, ((f s c).1).pending_block = s.pending_block
      ∧ ((f s c).1).received_certificate_trackers = s.received_certificate_trackers
      ∧ s.next_block_height ≤ ((f s c).1).next_block_height) :
    ∀ (rs : List (ValidatorName × ChainInfo)) (st : Sess),
      (receive_loop f st rs).pending_block = st.pending_block
      ∧ st.next_block_height ≤ (receive_loop f st rs).next_block_height := by
  intro rs
  induction rs with
  | nil => intro st; exact ⟨rfl, Nat.le_refl _⟩
  | cons hd tl ih =>
    obtain ⟨name, response⟩ := hd
    intro st
    unfold receive_loop
    cases hra : receive_all f st response.queried_received_certificates with
    | mk s1 b =>
      have h1 := receive_all_state f hf response.queried_received_certificates st
      rw [hra] at h1
      cases b with
      | true =>
        have h2 := ih { s1 with
          received_certificate_trackers :=
            insertTracker s1.received_certificate_trackers name
              response.count_received_certificates }
        exact ⟨h2.1.trans h1.1, h1.2.2.trans h2.2⟩
      | false =>
        have h2 := ih s1
        exact ⟨h2.1.trans h1.1, h1.2.2.trans h2.2⟩

theorem find_received_certificates_state (st : Sess) (env : FindEnv) :
    ((find_received_certificates st env).1).pending_block = st.pending_block
    ∧ st.next_block_height
        ≤ ((find_received_certificates st env).1).next_block_height := by
  unfold find_received_certificates
  split
  · exact ⟨rfl, Nat.le_refl _⟩
  · split
    · exact receive_loop_state _
        (fun s c => receive_certificate_state s c (env.envsel s c)) _ st
    · split
      · exact ⟨rfl, Nat.le_refl _⟩
      · exact ⟨rfl, Nat.le_refl _⟩
    · exact ⟨rfl, Nat.le_refl _⟩
    · exact ⟨rfl, Nat.le_refl _⟩

theorem local_balance_fst (st : Sess) (env : LocalBalanceEnv) :
    (local_balance st env).1 = st := by
  unfold local_balance
  split
  · rfl
  · split
    · split
      · rfl
      · split
        · rfl
        · rfl
    · rfl

theorem synchronize_balance_mono (st : Sess) (env : SyncEnv) :
    st.next_block_height ≤ ((synchronize_balance st env).1).next_block_height := by
  unfold synchronize_balance
  cases hf : find_received_certificates st env.find with
  | mk st1 r1 =>
    have h1 := find_received_certificates_state st env.find
    rw [hf] at h1
    cases r1 with
    | error e => exact h1.2
    | ok u =>
      dsimp only
      cases hp : prepare_chain st1 env.prep with
      | mk st2 r2 =>
        have h2 := prepare_chain_mono st1 env.prep
        rw [hp] at h2
        cases r2 with
        | error e => exact h1.2.trans h2
        | ok u2 =>
          dsimp only
          have h3 : (local_balance st2 env.lb).1 = st2 := local_balance_fst st2 env.lb
          rw [h3]
          exact h1.2.trans h2

theorem synchronize_balance_trackers_eq_find (st : Sess) (env : SyncEnv) :
    ((synchronize_balance st env).1).received_certificate_trackers
      = ((find_received_certificates st env.find).1).received_certificate_trackers := by
  unfold synchronize_balance
  cases hf : find_received_certificates st env.find with
  | mk st1 r1 =>
    cases r1 with
    | error e => rfl
    | ok u =>
      dsimp only
      cases hp : prepare_chain st1 env.prep with
      | mk st2 r2 =>
        have h2 := prepare_chain_trackers st1 env.prep
        rw [hp] at h2
        cases r2 with
        | error e => exact h2
        | ok u2 =>
          dsimp only
          have h3 : (local_balance st2 env.lb).1 = st2 := local_balance_fst st2 env.lb
          rw [h3]
          exact h2

theorem synchronize_balance_pending (st : Sess) (env : SyncEnv) :
    ((synchronize_balance st env).1).pending_block = st.pending_block := by
  unfold synchronize_balance
  cases hf : find_received_certificates st env.find with
  | mk st1 r1 =>
    have h1 := find_received_certificates_state st env.find
    rw [hf] at h1
    cases r1 with
    | error e => exact h1.1
    | ok u =>
      dsimp only
      cases hp : prepare_chain st1 env.prep with
      | mk st2 r2 =>
        have h2 := prepare_chain_pending st1 env.prep
        rw [hp] at h2
        cases r2 with
        | error e => exact h2.trans h1.1
        | ok u2 =>
          dsimp only
          have h3 : (local_balance st2 env.lb).1 = st2 := local_balance_fst st2 env.lb
          rw [h3]
          exact h2.trans h1.1

theorem transfer_mono (st : Sess) (amount : Amount) (recipient : Address)
    (user_data : UserData) (env : TransferEnv) :
    st.next_block_height ≤ ((transfer st amount recipient user_data env).1).next_block_height := by
  unfold transfer
  cases hs : synchronize_balance st env.sync with
  | mk st1 r1 =>
    have h1 := synchronize_balance_mono st env.sync
    rw [hs] at h1
    cases r1 with
    | error e => exact h1
    | ok balance =>
      dsimp only
      split
      · split
        · exact h1
        · exact h1.trans (propose_block_mono ..)
      · exact h1

theorem transfer_trackers_eq_find (st : Sess) (amount : Amount) (recipient : Address)
    (user_data : UserData) (env : TransferEnv) :
    ((transfer st amount recipient user_data env).1).received_certificate_trackers
      = ((find_received_certificates st env.sync.find).1).received_certificate_trackers := by
  unfold transfer
  cases hs : synchronize_balance st env.sync with
  | mk st1 r1 =>
    have h1 := synchronize_balance_trackers_eq_find st env.sync
    rw [hs] at h1
    cases r1 with
    | error e => exact h1
    | ok balance =>
      dsimp only
      split
      · split
        · exact h1
        · exact (propose_block_trackers ..).trans h1
      · exact h1

theorem unsafe_transfer_mono (st : Sess) (amount : Amount) (recipient : ChainId)
    (user_data : UserData) (env : UnsafeEnv) :
    st.next_block_height
      ≤ ((transfer_to_chain_unsafe_unconfirmed st amount recipient user_data env).1).next_block_height := by
  unfold transfer_to_chain_unsafe_unconfirmed
  cases hp : prepare_chain st env.prep with
  | mk st1 r1 =>
    have h1 := prepare_chain_mono st env.prep
    rw [hp] at h1
    cases r1 with
    | error e => exact h1
    | ok u =>
      dsimp only
      split
      · exact h1
      · exact h1.trans (propose_block_mono ..)

theorem unsafe_transfer_trackers (st : Sess) (amount : Amount) (recipient : ChainId)
    (user_data : UserData) (env : UnsafeEnv) :
    ((transfer_to_chain_unsafe_unconfirmed st amount recipient user_data env).1).received_certificate_trackers
      = st.received_certificate_trackers := by
  unfold transfer_to_chain_unsafe_unconfirmed
  cases hp : prepare_chain st env.prep with
  | mk st1 r1 =>
    have h1 := prepare_chain_trackers st env.prep
    rw [hp] at h1
    cases r1 with
    | error e => exact h1
    | ok u =>
      dsimp only
      split
      · exact h1
      · exact (propose_block_trackers ..).trans h1

theorem retry_pending_block_mono (st : Sess) (env : RetryEnv) :
    st.next_block_height ≤ ((retry_pending_block st env).1).next_block_height := by
  unfold retry_pending_block
  cases hf : find_received_certificates st env.find with
  | mk st1 r1 =>
    have h1 := find_received_certificates_state st env.find
    rw [hf] at h1
    cases r1 with
    | error e => exact h1.2
    | ok u =>
      dsimp only
      cases hp : prepare_chain st1 env.prep with
      | mk st2 r2 =>
        have h2 := prepare_chain_mono st1 env.prep
        rw [hp] at h2
        cases r2 with
        | error e => exact h1.2.trans h2
        | ok u2 =>
          dsimp only
          cases st2.pending_block with
          | none => exact h1.2.trans h2
          | some block =>
            dsimp only
            cases hpb : propose_block st2 block true env.prop with
            | mk st3 r3 =>
              have h3 := propose_block_mono st2 block true env.prop
              rw [hpb] at h3
              cases r3 with
              | error e => exact (h1.2.trans h2).trans h3
              | ok c => exact (h1.2.trans h2).trans h3

theorem retry_pending_block_trackers_eq_find (st : Sess) (env : RetryEnv) :
    ((retry_pending_block st env).1).received_certificate_trackers
      = ((find_received_certificates st env.find).1).received_certificate_trackers := by
  unfold retry_pending_block
  cases hf : find_received_certificates st env.find with
  | mk st1 r1 =>
    cases r1 with
    | error e => rfl
    | ok u =>
      dsimp only
      cases hp : prepare_chain st1 env.prep with
      | mk st2 r2 =>
        have h2 := prepare_chain_trackers st1 env.prep
        rw [hp] at h2
        cases r2 with
        | error e => exact h2
        | ok u2 =>
          dsimp only
          cases st2.pending_block with
          | none => exact h2
          | some block =>
            dsimp only
            cases hpb : propose_block st2 block true env.prop with
            | mk st3 r3 =>
              have h3 := propose_block_trackers st2 block true env.prop
              rw [hpb] at h3
              cases r3 with
              | error e => exact h3.trans h2
              | ok c => exact h3.trans h2

end Zef

namespace Zef

theorem receive_loop_trackers_mono (f : Sess → Certificate → Sess × Except Err Unit)
    (hft : ∀ s c, ((f s c).1).received_certificate_trackers
      = s.received_certificate_trackers) (base : ValidatorName → Nat) :
    ∀ (rs : List (ValidatorName × ChainInfo)) (st : Sess),
      (∀ v, base v ≤ st.received_certificate_trackers v) →
      (∀ p ∈ rs, base p.1 ≤ p.2.count_received_certificates) →
      ∀ v, base v ≤ (receive_loop f st rs).received_certificate_trackers v := by
  intro rs
  induction rs with
  | nil => intro st hinv _ v; exact hinv v
  | cons hd tl ih =>
    obtain ⟨name, response⟩ := hd
    intro st hinv hcounts v
    unfold receive_loop
    cases hra : receive_all f st response.queried_received_certificates with
    | mk s1 b =>
      have hs1 : s1.received_certificate_trackers = st.received_certificate_trackers := by
        have h := receive_all_trackers f hft response.queried_received_certificates st
        rw [hra] at h; exact h
      cases b with
      | false =>
        refine ih s1 (fun w => ?_) (fun p hp => hcounts p (List.mem_cons_of_mem _ hp)) v
        rw [hs1]; exact hinv w
      | true =>
        refine ih _ (fun w => ?_) (fun p hp => hcounts p (List.mem_cons_of_mem _ hp)) v
        show base w ≤ insertTracker s1.received_certificate_trackers name
          response.count_received_certificates w
        unfold insertTracker
        by_cases hw : w = name
        · rw [if_pos hw, hw]
          exact hcounts (name, response) (List.mem_cons_self _ _)
        · rw [if_neg hw, hs1]
          exact hinv w

theorem find_received_certificates_trackers_mono (st : Sess) (env : FindEnv)
    (h : countsOk st env.outcome) :
    ∀ v, st.received_certificate_trackers v
      ≤ ((find_received_certificates st env).1).received_certificate_trackers v := by
  intro v
  unfold find_received_certificates
  split
  · exact Nat.le_refl _
  · split
    · rename_i u responses heq
      refine receive_loop_trackers_mono _
        (fun s c => (receive_certificate_state s c (env.envsel s c)).2.1)
        st.received_certificate_trackers responses st (fun w => Nat.le_refl _) ?_ v
      intro p hp
      unfold countsOk at h
      rw [heq] at h
      exact h p hp
    · split
      · exact Nat.le_refl _
      · exact Nat.le_refl _
    · exact Nat.le_refl _
    · exact Nat.le_refl _

/-- C2 (corrected): the received-certificate tracker of a validator `v` is
non-decreasing across every client operation provided every fully processed
response reports a `count_received_certificates` at least as large as the
current tracker (`OpCountsOk`, true of honest validators); a validator
reporting a smaller count lowers the tracker (see the counterexample). -/
theorem tracker_monotone_under_honest_counts :
    ∀ (op : ClientOp) (st : Sess), OpCountsOk op st →
      ∀ v, st.received_certificate_trackers v
        ≤ (runOp op st).received_certificate_trackers v := by
  intro op st hok v
  cases op with
  | prepare env =>
    show st.received_certificate_trackers v
      ≤ ((prepare_chain st env).1).received_certificate_trackers v
    rw [prepare_chain_trackers]
  | propose block wc env =>
    show st.received_certificate_trackers v
      ≤ ((propose_block st block wc env).1).received_certificate_trackers v
    rw [propose_block_trackers]
  | processCert resp =>
    show st.received_certificate_trackers v
      ≤ ((process_certificate st resp).1).received_certificate_trackers v
    rw [process_certificate_trackers]
  | receiveCert c env =>
    show st.received_certificate_trackers v
      ≤ ((receive_certificate st c env).1).received_certificate_trackers v
    rw [(receive_certificate_state st c env).2.1]
  | findReceived env => exact find_received_certificates_trackers_mono st env hok v
  | localBalance env =>
    show st.received_certificate_trackers v
      ≤ ((local_balance st env).1).received_certificate_trackers v
    rw [local_balance_fst]
  | syncBalance env =>
    show st.received_certificate_trackers v
      ≤ ((synchronize_balance st env).1).received_certificate_trackers v
    rw [synchronize_balance_trackers_eq_find]
    exact find_received_certificates_trackers_mono st env.find hok v
  | transferToChain amount recipient user_data env =>
    show st.received_certificate_trackers v
      ≤ ((transfer st amount (.Account recipient) user_data env).1).received_certificate_trackers v
    rw [transfer_trackers_eq_find]
    exact find_received_certificates_trackers_mono st env.sync.find hok v
  | burnOp amount user_data env =>
    show st.received_certificate_trackers v
      ≤ ((transfer st amount .Burn user_data env).1).received_certificate_trackers v
    rw [transfer_trackers_eq_find]
    exact find_received_certificates_trackers_mono st env.sync.find hok v
  | unsafeTransfer amount recipient user_data env =>
    show st.received_certificate_trackers v
      ≤ ((transfer_to_chain_unsafe_unconfirmed st amount recipient user_data env).1).received_certificate_trackers v
    rw [unsafe_transfer_trackers]
  | retryPending env =>
    show st.received_certificate_trackers v
      ≤ ((retry_pending_block st env).1).received_certificate_trackers v
    rw [retry_pending_block_trackers_eq_find]
    exact find_received_certificates_trackers_mono st env.find hok v
  | clearPending => exact Nat.le_refl _

/-- C2 witness: with validator 7 honestly reporting count 9 (at least the
cursor 5), the tracker does not decrease. -/
theorem tracker_monotone_under_honest_counts_witness :
    sessA.received_certificate_trackers 7
      ≤ (runOp (.findReceived findEnvNine) sessA).received_certificate_trackers 7 :=
  tracker_monotone_under_honest_counts (.findReceived findEnvNine) sessA (by decide) 7

/-- C2 counterexample: validator 7 reports `count_received_certificates = 0`
with an empty batch; `find_received_certificates` overwrites the tracker from
5 down to 0, so the tracker is not non-decreasing under arbitrary reported
counts. -/
theorem tracker_decrease_cex :
    (runOp (.findReceived findEnvCex) sessA).received_certificate_trackers 7
      < sessA.received_certificate_trackers 7 := by decide

/-- C4: `next_block_height` never decreases across any client operation, and
the tip-update primitives leave the session untouched unless the observed
`(next_block_height, next_round)` pair is lexicographically greater than the
session's current pair. -/
theorem next_block_height_monotone :
    (∀ (op : ClientOp) (st : Sess),
      st.next_block_height ≤ (runOp op st).next_block_height)
    ∧ (∀ (st : Sess) (info : ChainInfo),
      ¬ lexGT (info.next_block_height, info.manager.next_round)
          (st.next_block_height, st.next_round) →
      update_tip st info = st ∧ process_certificate st (.ok info) = (st, .ok ())) := by
  constructor
  · intro op st
    cases op with
    | prepare env => exact prepare_chain_mono st env
    | propose block wc env => exact propose_block_mono st block wc env
    | processCert resp => exact process_certificate_mono st resp
    | receiveCert c env => exact (receive_certificate_state st c env).2.2
    | findReceived env => exact (find_received_certificates_state st env).2
    | syncBalance env => exact synchronize_balance_mono st env
    | localBalance env =>
      show st.next_block_height ≤ ((local_balance st env).1).next_block_height
      rw [local_balance_fst]
    | transferToChain amount recipient user_data env =>
      exact transfer_mono st amount (.Account recipient) user_data env
    | burnOp amount user_data env => exact transfer_mono st amount .Burn user_data env
    | unsafeTransfer amount recipient user_data env =>
      exact unsafe_transfer_mono st amount recipient user_data env
    | retryPending env => exact retry_pending_block_mono st env
    | clearPending => exact Nat.le_refl _
  · intro st info h
    have hu : update_tip st info = st := by
      unfold update_tip; exact if_neg h
    refine ⟨hu, ?_⟩
    unfold process_certificate
    dsimp only
    by_cases hc : info.chain_id = st.chain_id
    · rw [if_pos hc, hu]
    · rw [if_neg hc]

/-- C4 witness: at the concrete state `sessA` and info `infoA` (equal pair),
the tip-update primitives are the identity. -/
theorem next_block_height_monotone_witness :
    update_tip sessA infoA = sessA ∧ process_certificate sessA (.ok infoA) = (sessA, .ok ()) :=
  next_block_height_monotone.2 sessA infoA (by decide)

end Zef

namespace Zef

/-- C1 (amended): when the final certificate's confirmed block differs from
the proposed block, the "executed in parallel" error surfaces to the caller
but the session (and in particular `pending_block`) is left untouched — the
pending block is not cleared, so a subsequent `retry_pending_block` never
returns `Ok(None)` while a block is pending: it re-proposes (or fails). -/
theorem concurrent_mismatch_keeps_pending :
    (∀ (st : Sess) (committee : Committee) (proposal : BlockProposal)
      (final_certificate : Certificate) (with_confirmation : Bool) (env : ProposeEnv),
      ¬ final_certificate.value.confirmed_block = some proposal.content.block →
      finish_propose st committee proposal final_certificate with_confirmation env
        = (st, .error .concurrentProposal))
    ∧ (∀ (st : Sess) (env : RetryEnv) (block : Block),
      st.pending_block = some block →
      ¬ (retry_pending_block st env).2 = .ok none) := by
  constructor
  · intro st committee proposal final_certificate with_confirmation env h
    unfold finish_propose
    rw [if_neg h]
  · intro st env block hpb
    unfold retry_pending_block
    cases hf : find_received_certificates st env.find with
    | mk st1 r1 =>
      cases r1 with
      | error e => exact fun hcon => Except.noConfusion hcon
      | ok u =>
        dsimp only
        cases hp : prepare_chain st1 env.prep with
        | mk st2 r2 =>
          cases r2 with
          | error e => exact fun hcon => Except.noConfusion hcon
          | ok u2 =>
            dsimp only
            have hpb2 : st2.pending_block = some block := by
              have h1 := find_received_certificates_state st env.find
              rw [hf] at h1
              have h2 := prepare_chain_pending st1 env.prep
              rw [hp] at h2
              exact (h2.trans h1.1).trans hpb
            rw [hpb2]
            dsimp only
            cases hpr : propose_block st2 block true env.prop with
            | mk st3 r3 =>
              cases r3 with
              | error e => exact fun hcon => Except.noConfusion hcon
              | ok c =>
                exact fun hcon => Option.noConfusion (Except.ok.inj hcon)

/-- C1 witness: the amended behaviour at concrete inputs — a mismatching
certificate makes `finish_propose` fail with the concurrent-proposal error and
leave the state unchanged, and `retry_pending_block` on a pending session does
not return `Ok(None)`. -/
theorem concurrent_mismatch_keeps_pending_witness :
    finish_propose sessPend 0 proposalA certOther true penvA
      = (sessPend, .error .concurrentProposal)
    ∧ ¬ (retry_pending_block sessPend renvA).2 = .ok none :=
  ⟨concurrent_mismatch_keeps_pending.1 sessPend 0 proposalA certOther true penvA (by decide),
    concurrent_mismatch_keeps_pending.2 sessPend renvA blockA rfl⟩

/-- C1 counterexample: at concrete inputs where the final certificate
confirms a different block, the error surfaces but `pending_block` is NOT
cleared (it still holds the proposed block), and the subsequent
`retry_pending_block` returns a certificate for the still-pending block
rather than `None` — contradicting the claim that the pending block is
cleared and the retry returns `None`. -/
theorem concurrent_mismatch_cex :
    (finish_propose sessPend 0 proposalA certOther true penvA).2
      = .error .concurrentProposal
    ∧ (finish_propose sessPend 0 proposalA certOther true penvA).1.pending_block
      = some blockA
    ∧ ¬ (finish_propose sessPend 0 proposalA certOther true penvA).1.pending_block = none
    ∧ (retry_pending_block sessPend renvA).2 = .ok (some certA) := by
  refine ⟨rfl, rfl, by decide, rfl⟩

/-- C3: in the received-certificate loop, a batch with any failing
certificate stops at the first failure (the remaining certificates are
skipped), leaves the whole tracker map unchanged, and processing proceeds
with the next validator; a fully successful batch updates the validator's
tracker to the validator-reported count before proceeding. -/
theorem received_batch_failure_semantics :
    ∀ (f : Sess → Certificate → Sess × Except Err Unit),
      (∀ s c, ((f s c).1).received_certificate_trackers
        = s.received_certificate_trackers) →
      ∀ (st : Sess) (name : ValidatorName) (response : ChainInfo)
        (rest : List (ValidatorName × ChainInfo)),
        ((receive_all f st response.queried_received_certificates).2 = false →
          receive_loop f st ((name, response) :: rest)
            = receive_loop f (receive_all f st response.queried_received_certificates).1 rest
          ∧ ((receive_all f st response.queried_received_certificates).1).received_certificate_trackers
            = st.received_certificate_trackers)
        ∧ ((receive_all f st response.queried_received_certificates).2 = true →
          receive_loop f st ((name, response) :: rest)
            = receive_loop f
                { (receive_all f st response.queried_received_certificates).1 with
                  received_certificate_trackers :=
                    insertTracker
                      ((receive_all f st response.queried_received_certificates).1).received_certificate_trackers
                      name response.count_received_certificates }
                rest)
        ∧ (∀ (c : Certificate) (cs : List Certificate) (s : Sess) (e : Err),
          (f s c).2 = .error e → receive_all f s (c :: cs) = ((f s c).1, false)) := by
  intro f hft st name response rest
  refine ⟨?_, ?_, ?_⟩
  · intro hfalse
    refine ⟨?_, receive_all_trackers f hft response.queried_received_certificates st⟩
    conv_lhs => rw [receive_loop.eq_def]
    dsimp only
    cases hra : receive_all f st response.queried_received_certificates with
    | mk s1 b =>
      have hb : b = false := by rw [hra] at hfalse; exact hfalse
      subst hb
      rfl
  · intro htrue
    conv_lhs => rw [receive_loop.eq_def]
    dsimp only
    cases hra : receive_all f st response.queried_received_certificates with
    | mk s1 b =>
      have hb : b = true := by rw [hra] at htrue; exact htrue
      subst hb
      rfl
  · intro c cs s e hfc
    conv_lhs => rw [receive_all.eq_def]
    dsimp only
    cases hfc2 : f s c with
    | mk s2 r2 =>
      have hr : r2 = .error e := by rw [hfc2] at hfc; exact hfc
      subst hr
      rfl

/-- C3 witness: validator 7's batch contains one certificate on which the
receive function fails, so the loop proceeds to the (empty) rest with the
tracker map unchanged. -/
theorem received_batch_failure_semantics_witness :
    receive_loop f0 sessA [(7, infoWithCert)]
      = receive_loop f0 (receive_all f0 sessA infoWithCert.queried_received_certificates).1 []
    ∧ ((receive_all f0 sessA infoWithCert.queried_received_certificates).1).received_certificate_trackers
      = sessA.received_certificate_trackers :=
  (received_batch_failure_semantics f0 (fun s c => rfl) sessA 7 infoWithCert []).1 (by decide)

/-- C5: `propose_block` fails — with the session unchanged and without
consulting any oracle — unless `pending_block` is empty or equal to `block`,
`block.height` matches `next_block_height` and `block.previous_block_hash`
matches `block_hash`; when all three preconditions hold it records
`pending_block = some block` and only then dispatches to the network. -/
theorem propose_block_preconditions :
    ∀ (st : Sess) (block : Block) (with_confirmation : Bool) (env : ProposeEnv),
      (¬ (st.pending_block = none ∨ st.pending_block = some block) →
        propose_block st block with_confirmation env = (st, .error .differentPendingBlock))
      ∧ ((st.pending_block = none ∨ st.pending_block = some block) →
        ¬ block.height = st.next_block_height →
        propose_block st block with_confirmation env = (st, .error .unexpectedBlockHeight))
      ∧ ((st.pending_block = none ∨ st.pending_block = some block) →
        block.height = st.next_block_height →
        ¬ block.previous_block_hash = st.block_hash →
        propose_block st block with_confirmation env
          = (st, .error .unexpectedPreviousBlockHash))
      ∧ ((st.pending_block = none ∨ st.pending_block = some block) →
        block.height = st.next_block_height →
        block.previous_block_hash = st.block_hash →
        propose_block st block with_confirmation env
          = propose_dispatch { st with pending_block := some block } block st.next_round
              with_confirmation env) := by
  intro st block with_confirmation env
  refine ⟨?_, ?_, ?_, ?_⟩
  · intro h1
    unfold propose_block
    rw [if_neg h1]
  · intro h1 h2
    unfold propose_block
    rw [if_pos h1, if_neg h2]
  · intro h1 h2 h3
    unfold propose_block
    rw [if_pos h1, if_pos h2, if_neg h3]
  · intro h1 h2 h3
    unfold propose_block
    rw [if_pos h1, if_pos h2, if_pos h3]

/-- C5 witness: with `blockA` pending, proposing the different `blockB` fails
with the pending-block error and leaves the session unchanged. -/
theorem propose_block_preconditions_witness :
    propose_block sessPend blockB true penvA = (sessPend, .error .differentPendingBlock) :=
  (propose_block_preconditions sessPend blockB true penvA).1 (by decide)

end Zef

namespace Zef

/-- C7: `InactiveChain` on the session's own chain is non-fatal in exactly
two places — an `AdvanceToNextBlockHeight` broadcast in
`communicate_chain_updates` returns `Ok(None)`, and the fan-out of
`find_received_certificates` returns `Ok(())` — while the same error for
another chain, or for any other action, propagates as a quorum failure. -/
theorem inactive_chain_nonfatal :
    (∀ (chain_id : ChainId) (height : BlockHeight),
      communicate_chain_updates chain_id (.AdvanceToNextBlockHeight height)
        (.error (some (.InactiveChain chain_id))) = .ok none)
    ∧ (∀ (chain_id id : ChainId) (action : CommunicateAction),
      ¬ (id = chain_id ∧ action.isAdvance = true) →
      communicate_chain_updates chain_id action (.error (some (.InactiveChain id)))
        = .error (.quorumFailedWith (.InactiveChain id)))
    ∧ (∀ (st : Sess) (env : FindEnv) (committee : Committee),
      committee_of st.chain_id env.cinfo = .ok committee →
      env.outcome = .error (some (.InactiveChain st.chain_id)) →
      find_received_certificates st env = (st, .ok ()))
    ∧ (∀ (st : Sess) (env : FindEnv) (committee : Committee) (id : ChainId),
      committee_of st.chain_id env.cinfo = .ok committee →
      env.outcome = .error (some (.InactiveChain id)) →
      ¬ id = st.chain_id →
      find_received_certificates st env
        = (st, .error (.quorumFailedWith (.InactiveChain id)))) := by
  refine ⟨?_, ?_, ?_, ?_⟩
  · intro chain_id height
    unfold communicate_chain_updates
    dsimp only
    rw [if_pos ⟨rfl, rfl⟩]
  · intro chain_id id action h
    unfold communicate_chain_updates
    dsimp only
    rw [if_neg h]
  · intro st env committee hcom hout
    unfold find_received_certificates
    rw [hcom, hout]
    dsimp only
    rw [if_pos rfl]
  · intro st env committee id hcom hout hne
    unfold find_received_certificates
    rw [hcom, hout]
    dsimp only
    rw [if_neg hne]

/-- C7 witness: a fan-out failing with `InactiveChain` on the session's own
chain 1 makes `find_received_certificates` succeed with nothing done. -/
theorem inactive_chain_nonfatal_witness :
    find_received_certificates sessA findEnvInactive = (sessA, .ok ()) :=
  inactive_chain_nonfatal.2.2.1 sessA findEnvInactive 0 rfl rfl

/-- C8: `identity()` returns the sole owner of a single-owner chain exactly
when that owner has a known key pair (failing otherwise); on a multi-owner
chain it returns `o` exactly when `o` is the unique owner with a known key
pair (failing on zero or two-plus matches); on an inactive chain it fails
with `InactiveChain`. -/
theorem identity_characterization :
    ∀ (st : Sess) (info : ChainInfo),
      (∀ owner : Owner, info.manager = .single owner →
        (identity st (.ok info) = .ok owner ↔ (st.known_key_pairs owner).isSome = true)
        ∧ ((st.known_key_pairs owner).isSome = false →
          identity st (.ok info) = .error .noKeyForSingleOwner))
      ∧ (∀ (owners : List Owner) (round : RoundNumber),
        info.manager = .multi owners round →
        ∀ o : Owner,
          identity st (.ok info) = .ok o
            ↔ owners.filter (fun w => (st.known_key_pairs w).isSome) = [o])
      ∧ (info.manager = .none →
        identity st (.ok info) = .error (.InactiveChain st.chain_id)) := by
  intro st info
  refine ⟨?_, ?_, ?_⟩
  · intro owner hm
    unfold identity
    dsimp only
    rw [hm]
    dsimp only
    constructor
    · constructor
      · intro hid
        by_cases hk : (st.known_key_pairs owner).isSome = true
        · exact hk
        · rw [if_neg hk] at hid
          exact Except.noConfusion hid
      · intro hk
        rw [if_pos hk]
    · intro hk
      have hne : ¬ (st.known_key_pairs owner).isSome = true := by
        rw [hk]; exact Bool.false_ne_true
      rw [if_neg hne]
  · intro owners round hm o
    unfold identity
    dsimp only
    rw [hm]
    dsimp only
    generalize List.filter (fun w => (st.known_key_pairs w).isSome) owners = l
    cases l with
    | nil => simp
    | cons x xs =>
      cases xs with
      | nil =>
        have h1 : ¬ ([x].isEmpty = true) := by simp
        have h2 : ¬ (2 ≤ [x].length) := by simp
        rw [if_neg h1, if_neg h2, List.getLast?_singleton]
        dsimp only
        simp
      | cons y ys =>
        have h1 : ¬ ((x :: y :: ys).isEmpty = true) := by simp
        have h2 : 2 ≤ (x :: y :: ys).length := by
          simp only [List.length_cons]
          omega
        rw [if_neg h1, if_pos h2]
        exact iff_of_false (fun hh => Except.noConfusion hh) (by simp)
  · intro hm
    unfold identity
    dsimp only
    rw [hm]

/-- C8 witness: on the concrete single-owner chain owned by 4, whose key is
known to `sessA`, `identity` returns owner 4. -/
theorem identity_characterization_witness :
    identity sessA (.ok infoA) = .ok 4 :=
  ((identity_characterization sessA infoA).1 4 rfl).1.mpr (by decide)

/-- C10: `local_balance` never mutates the session; it fails with the
local-node-behind error whenever the local node's `next_block_height` differs
from the session's (consulting neither the pending messages nor the staging
oracle), and only when the heights agree does it stage the empty block at the
session tip and return the staged balance. -/
theorem local_balance_characterization :
    ∀ (st : Sess) (env : LocalBalanceEnv),
      (local_balance st env).1 = st
      ∧ (∀ info : ChainInfo, env.info = .ok info →
        ¬ info.next_block_height = st.next_block_height →
        (local_balance st env).2 = .error .localNodeBehind)
      ∧ (∀ (info pm : ChainInfo), env.info = .ok info →
        info.next_block_height = st.next_block_height →
        env.pmInfo = .ok pm →
        (local_balance st env).2
          = (match env.stage
                { chain_id := st.chain_id
                  incoming_messages := pm.queried_pending_messages
                  operations := []
                  height := st.next_block_height
                  previous_block_hash := st.block_hash } with
            | .error e => .error e
            | .ok info2 => .ok info2.balance)) := by
  intro st env
  refine ⟨local_balance_fst st env, ?_, ?_⟩
  · intro info hinfo hne
    unfold local_balance
    rw [hinfo]
    dsimp only
    rw [if_neg hne]
  · intro info pm hinfo heq hpm
    unfold local_balance
    rw [hinfo]
    dsimp only
    rw [if_pos heq]
    have hp : pending_messages env.pmInfo = .ok pm.queried_pending_messages := by
      unfold pending_messages
      rw [hpm]
    rw [hp]
    dsimp only
    cases hs : env.stage
        { chain_id := st.chain_id
          incoming_messages := pm.queried_pending_messages
          operations := []
          height := st.next_block_height
          previous_block_hash := st.block_hash } with
    | error e => rfl
    | ok info2 => rfl

/-- C10 witness: with the local node at height 1 while the session is at
height 0, `local_balance` fails with the synchronization error. -/
theorem local_balance_characterization_witness :
    (local_balance sessA lbEnvBehind).2 = .error .localNodeBehind :=
  (local_balance_characterization sessA lbEnvBehind).2.1 infoAdv rfl (by decide)

end Zef

namespace Zef

theorem communicate_chain_updates_ne_ib (chain_id : ChainId) (action : CommunicateAction)
    (outcome : QOutcome) :
    ¬ communicate_chain_updates chain_id action outcome = .error .insufficientBalance := by
  unfold communicate_chain_updates
  cases outcome with
  | error oe =>
    cases oe with
    | none =>
      dsimp only
      intro hcon
      exact Err.noConfusion (Except.error.inj hcon)
    | some e =>
      cases e <;> dsimp only <;>
        try (intro hcon; exact Err.noConfusion (Except.error.inj hcon))
      split
      · intro hcon; exact Except.noConfusion hcon
      · intro hcon; exact Err.noConfusion (Except.error.inj hcon)
  | ok pair =>
    obtain ⟨state_hash, votes⟩ := pair
    dsimp only
    cases action with
    | SubmitBlockForConfirmation proposal =>
      cases state_hash <;> dsimp only <;> intro hcon
      · exact Err.noConfusion (Except.error.inj hcon)
      · exact Except.noConfusion hcon
    | SubmitBlockForValidation proposal =>
      cases state_hash <;> dsimp only <;> intro hcon
      · exact Err.noConfusion (Except.error.inj hcon)
      · exact Except.noConfusion hcon
    | FinalizeBlock certificate =>
      dsimp only
      generalize certificate.value = cv
      cases cv <;> dsimp only <;> intro hcon
      · exact Err.noConfusion (Except.error.inj hcon)
      · exact Except.noConfusion hcon
    | AdvanceToNextBlockHeight height =>
      intro hcon
      exact Except.noConfusion hcon

theorem process_certificate_ne_ib (st : Sess) (resp : Except Err ChainInfo)
    (h : ¬ resp = .error .insufficientBalance) :
    ¬ (process_certificate st resp).2 = .error .insufficientBalance := by
  unfold process_certificate
  cases hr : resp with
  | error e =>
    rw [hr] at h
    dsimp only
    intro hcon
    have h2 : e = Err.insufficientBalance := Except.error.inj hcon
    subst h2
    exact h rfl
  | ok info =>
    dsimp only
    split
    · intro hcon; exact Except.noConfusion hcon
    · intro hcon; exact Except.noConfusion hcon

theorem committee_of_ne_ib (chain_id : ChainId) (r : Except Err ChainInfo)
    (h : ¬ r = .error .insufficientBalance) :
    ¬ committee_of chain_id r = .error .insufficientBalance := by
  unfold committee_of
  cases hr : r with
  | error e =>
    rw [hr] at h
    dsimp only
    intro hcon
    have h2 : e = Err.insufficientBalance := Except.error.inj hcon
    subst h2
    exact h rfl
  | ok info =>
    dsimp only
    split
    · intro hcon; exact Except.noConfusion hcon
    · intro hcon; exact Err.noConfusion (Except.error.inj hcon)

theorem identity_ne_ib (st : Sess) (r : Except Err ChainInfo)
    (h : ¬ r = .error .insufficientBalance) :
    ¬ identity st r = .error .insufficientBalance := by
  unfold identity
  cases hr : r with
  | error e =>
    rw [hr] at h
    dsimp only
    intro hcon
    have h2 : e = Err.insufficientBalance := Except.error.inj hcon
    subst h2
    exact h rfl
  | ok info =>
    dsimp only
    cases info.manager with
    | single owner =>
      dsimp only
      split
      · intro hcon; exact Except.noConfusion hcon
      · intro hcon; exact Err.noConfusion (Except.error.inj hcon)
    | multi owners round =>
      dsimp only
      split
      · intro hcon; exact Err.noConfusion (Except.error.inj hcon)
      · split
        · intro hcon; exact Err.noConfusion (Except.error.inj hcon)
        · split
          · intro hcon; exact Except.noConfusion hcon
          · intro hcon; exact Err.noConfusion (Except.error.inj hcon)
    | none =>
      dsimp only
      intro hcon
      exact Err.noConfusion (Except.error.inj hcon)

theorem key_pair_ne_ib (st : Sess) (r : Except Err ChainInfo)
    (h : ¬ r = .error .insufficientBalance) :
    ¬ key_pair st r = .error .insufficientBalance := by
  unfold key_pair
  cases hid : identity st r with
  | error e =>
    dsimp only
    intro hcon
    have h2 : e = Err.insufficientBalance := Except.error.inj hcon
    subst h2
    exact identity_ne_ib st r h hid
  | ok owner =>
    dsimp only
    split
    · intro hcon; exact Except.noConfusion hcon
    · intro hcon; exact Err.noConfusion (Except.error.inj hcon)

theorem pending_messages_ne_ib (r : Except Err ChainInfo)
    (h : ¬ r = .error .insufficientBalance) :
    ¬ pending_messages r = .error .insufficientBalance := by
  unfold pending_messages
  cases hr : r with
  | error e =>
    rw [hr] at h
    dsimp only
    intro hcon
    have h2 : e = Err.insufficientBalance := Except.error.inj hcon
    subst h2
    exact h rfl
  | ok info =>
    dsimp only
    intro hcon
    exact Except.noConfusion hcon

theorem finish_propose_ne_ib (st : Sess) (committee : Committee)
    (proposal : BlockProposal) (final_certificate : Certificate)
    (with_confirmation : Bool) (env : ProposeEnv)
    (hpr : ¬ env.pr = .error .insufficientBalance) :
    ¬ (finish_propose st committee proposal final_certificate with_confirmation env).2
      = .error .insufficientBalance := by
  unfold finish_propose
  split
  · cases hpc : process_certificate st env.pr with
    | mk st2 r2 =>
      have hpne := process_certificate_ne_ib st env.pr hpr
      rw [hpc] at hpne
      cases r2 with
      | error e =>
        dsimp only at hpne
        intro hcon
        have h2 : e = Err.insufficientBalance := Except.error.inj hcon
        subst h2
        exact hpne rfl
      | ok u =>
        dsimp only
        split
        · split
          · rename_i e heq
            intro hcon
            have h2 : e = Err.insufficientBalance := Except.error.inj hcon
            subst h2
            exact communicate_chain_updates_ne_ib _ _ _ heq
          · split
            · intro hcon; exact Except.noConfusion hcon
            · split
              · intro hcon; exact Except.noConfusion hcon
              · split
                · rename_i e heq
                  intro hcon
                  have h2 : e = Err.insufficientBalance := Except.error.inj hcon
                  subst h2
                  exact communicate_chain_updates_ne_ib _ _ _ heq
                · intro hcon; exact Except.noConfusion hcon
        · intro hcon; exact Except.noConfusion hcon
  · intro hcon
    exact Err.noConfusion (Except.error.inj hcon)

theorem propose_rounds_ne_ib (st : Sess) (proposal : BlockProposal)
    (with_confirmation : Bool) (env : ProposeEnv)
    (h5 : ¬ env.cinfo1 = .error .insufficientBalance)
    (h6 : ¬ env.info2 = .error .insufficientBalance)
    (h7 : ¬ env.pr = .error .insufficientBalance) :
    ¬ (propose_rounds st proposal with_confirmation env).2
      = .error .insufficientBalance := by
  unfold propose_rounds
  split
  · rename_i e heq
    intro hcon
    have h2 : e = Err.insufficientBalance := Except.error.inj hcon
    subst h2
    exact committee_of_ne_ib _ _ h5 heq
  · split
    · rename_i e heq
      intro hcon
      have h2 : e = Err.insufficientBalance := Except.error.inj hcon
      subst h2
      exact h6 heq
    · split
      · split
        · rename_i e heq
          intro hcon
          have h2 : e = Err.insufficientBalance := Except.error.inj hcon
          subst h2
          exact communicate_chain_updates_ne_ib _ _ _ heq
        · intro hcon; exact Err.noConfusion (Except.error.inj hcon)
        · split
          · split
            · rename_i e heq
              intro hcon
              have h2 : e = Err.insufficientBalance := Except.error.inj hcon
              subst h2
              exact communicate_chain_updates_ne_ib _ _ _ heq
            · intro hcon; exact Err.noConfusion (Except.error.inj hcon)
            · exact finish_propose_ne_ib _ _ _ _ _ _ h7
          · intro hcon; exact Err.noConfusion (Except.error.inj hcon)
      · split
        · rename_i e heq
          intro hcon
          have h2 : e = Err.insufficientBalance := Except.error.inj hcon
          subst h2
          exact communicate_chain_updates_ne_ib _ _ _ heq
        · intro hcon; exact Err.noConfusion (Except.error.inj hcon)
        · exact finish_propose_ne_ib _ _ _ _ _ _ h7
      · intro hcon; exact Err.noConfusion (Except.error.inj hcon)

theorem propose_dispatch_ne_ib (st : Sess) (block : Block) (next_round : RoundNumber)
    (with_confirmation : Bool) (env : ProposeEnv)
    (h4 : ¬ env.info1 = .error .insufficientBalance)
    (h5 : ¬ env.cinfo1 = .error .insufficientBalance)
    (h6 : ¬ env.info2 = .error .insufficientBalance)
    (h7 : ¬ env.pr = .error .insufficientBalance) :
    ¬ (propose_dispatch st block next_round with_confirmation env).2
      = .error .insufficientBalance := by
  unfold propose_dispatch
  split
  · rename_i e heq
    intro hcon
    have h2 : e = Err.insufficientBalance := Except.error.inj hcon
    subst h2
    exact key_pair_ne_ib st env.info1 h4 heq
  · exact propose_rounds_ne_ib _ _ _ _ h5 h6 h7

theorem propose_block_ne_ib (st : Sess) (block : Block) (with_confirmation : Bool)
    (env : ProposeEnv)
    (h4 : ¬ env.info1 = .error .insufficientBalance)
    (h5 : ¬ env.cinfo1 = .error .insufficientBalance)
    (h6 : ¬ env.info2 = .error .insufficientBalance)
    (h7 : ¬ env.pr = .error .insufficientBalance) :
    ¬ (propose_block st block with_confirmation env).2 = .error .insufficientBalance := by
  unfold propose_block
  split
  · split
    · split
      · exact propose_dispatch_ne_ib _ _ _ _ _ h4 h5 h6 h7
      · intro hcon; exact Err.noConfusion (Except.error.inj hcon)
    · intro hcon; exact Err.noConfusion (Except.error.inj hcon)
  · intro hcon; exact Err.noConfusion (Except.error.inj hcon)

theorem prepare_chain_ne_ib (st : Sess) (env : PrepareEnv)
    (h1 : ¬ env.dl = .error .insufficientBalance)
    (h2 : ¬ env.sync = .error .insufficientBalance) :
    ¬ (prepare_chain st env).2 = .error .insufficientBalance := by
  unfold prepare_chain
  cases hdl : env.dl with
  | error e =>
    rw [hdl] at h1
    dsimp only
    intro hcon
    have he : e = Err.insufficientBalance := Except.error.inj hcon
    subst he
    exact h1 rfl
  | ok info =>
    dsimp only
    split
    · intro hcon; exact Err.noConfusion (Except.error.inj hcon)
    · by_cases hm : info.manager.isMulti = true
      · rw [if_pos hm]
        cases hs : env.sync with
        | error e =>
          rw [hs] at h2
          dsimp only
          intro hcon
          have he : e = Err.insufficientBalance := Except.error.inj hcon
          subst he
          exact h2 rfl
        | ok info2 =>
          dsimp only
          intro hcon
          exact Except.noConfusion hcon
      · rw [if_neg hm]
        dsimp only
        intro hcon
        exact Except.noConfusion hcon

theorem unsafe_transfer_ne_ib (st : Sess) (amount : Amount) (recipient : ChainId)
    (user_data : UserData) (env : UnsafeEnv) (h : NoIB env) :
    ¬ (transfer_to_chain_unsafe_unconfirmed st amount recipient user_data env).2
      = .error .insufficientBalance := by
  obtain ⟨h1, h2, h3, h4, h5, h6, h7⟩ := h
  unfold transfer_to_chain_unsafe_unconfirmed
  cases hp : prepare_chain st env.prep with
  | mk st1 r1 =>
    have hpne := prepare_chain_ne_ib st env.prep h1 h2
    rw [hp] at hpne
    cases r1 with
    | error e =>
      dsimp only at hpne
      intro hcon
      have h2 : e = Err.insufficientBalance := Except.error.inj hcon
      subst h2
      exact hpne rfl
    | ok u =>
      dsimp only
      cases hpm : pending_messages env.pmInfo with
      | error e =>
        have hmne := pending_messages_ne_ib env.pmInfo h3
        rw [hpm] at hmne
        dsimp only
        intro hcon
        have he : e = Err.insufficientBalance := Except.error.inj hcon
        subst he
        exact hmne rfl
      | ok msgs =>
        dsimp only
        exact propose_block_ne_ib _ _ _ _ h4 h5 h6 h7

theorem finish_propose_ignores_advance (st : Sess) (committee : Committee)
    (proposal : BlockProposal) (final_certificate : Certificate) (env : ProposeEnv)
    (q1 q2 : QOutcome) (ci : Except Err ChainInfo) :
    finish_propose st committee proposal final_certificate false
        { env with qa1 := q1, qa2 := q2, cinfo2 := ci }
      = finish_propose st committee proposal final_certificate false env := by
  rfl

theorem propose_block_ignores_advance (st : Sess) (block : Block) (env : ProposeEnv)
    (q1 q2 : QOutcome) (ci : Except Err ChainInfo) :
    propose_block st block false { env with qa1 := q1, qa2 := q2, cinfo2 := ci }
      = propose_block st block false env := by
  rfl

/-- C6: `transfer_to_chain` and `burn` first compute `synchronize_balance()`
and fail with the insufficient-funds error, without proposing, whenever the
amount exceeds that balance; `transfer_to_chain_unsafe_unconfirmed` performs
no balance check (it can never produce that error when its oracles do not)
and proposes with `with_confirmation = false`, so its result is independent of
the advance-broadcast oracles. -/
theorem transfer_balance_checks :
    (∀ (st : Sess) (amount : Amount) (recipient : ChainId) (user_data : UserData)
      (env : TransferEnv) (st1 : Sess) (balance : Balance),
      synchronize_balance st env.sync = (st1, .ok balance) →
      balance < amount →
      transfer_to_chain st amount recipient user_data env
        = (st1, .error .insufficientBalance)
      ∧ burn st amount user_data env = (st1, .error .insufficientBalance))
    ∧ (∀ (st : Sess) (amount : Amount) (recipient : ChainId) (user_data : UserData)
      (env : UnsafeEnv), NoIB env →
      ¬ (transfer_to_chain_unsafe_unconfirmed st amount recipient user_data env).2
        = .error .insufficientBalance)
    ∧ (∀ (st : Sess) (amount : Amount) (recipient : ChainId) (user_data : UserData)
      (env : UnsafeEnv) (q1 q2 : QOutcome) (ci : Except Err ChainInfo),
      transfer_to_chain_unsafe_unconfirmed st amount recipient user_data
          { env with prop := { env.prop with qa1 := q1, qa2 := q2, cinfo2 := ci } }
        = transfer_to_chain_unsafe_unconfirmed st amount recipient user_data env) := by
  refine ⟨?_, ?_, ?_⟩
  · intro st amount recipient user_data env st1 balance hsync hlt
    constructor
    · unfold transfer_to_chain transfer
      rw [hsync]
      dsimp only
      rw [if_neg (Nat.not_le.mpr hlt)]
    · unfold burn transfer
      rw [hsync]
      dsimp only
      rw [if_neg (Nat.not_le.mpr hlt)]
  · intro st amount recipient user_data env h
    exact unsafe_transfer_ne_ib st amount recipient user_data env h
  · intro st amount recipient user_data env q1 q2 ci
    rfl

/-- C6 witness: with a synchronized balance of 5, transferring 7 fails with
the insufficient-funds error before proposing. -/
theorem transfer_balance_checks_witness :
    transfer_to_chain sessA 7 9 0 tenvA = (sessA, .error .insufficientBalance) :=
  (transfer_balance_checks.1 sessA 7 9 0 tenvA sessA 5 rfl (by decide)).1

end Zef

namespace Wasmtime

/-- C9: for every contract entrypoint (`instantiate`, `execute_operation`,
`execute_message`, `finalize`), `configure_initial_fuel` sets the engine fuel
to exactly the runtime's `remaining_fuel()` value and records it as
`initial_fuel` (whatever fuel the engine held before); after the entrypoint
consumes `consumed ≤ fuel` units, `persist_remaining_fuel` passes the
assertion `initial_fuel ≥ remaining_fuel` and charges the runtime via
`consume_fuel` with exactly `initial_fuel - remaining_fuel = consumed`. -/
theorem fuel_accounting :
    ∀ (e0 i0 fuel consumed : Nat) (cf : Nat → Except ExecutionError Unit)
      (r1 r3 r4 : Except ExecutionError Unit) (r2 : Except ExecutionError Nat),
      consumed ≤ fuel →
      configure_initial_fuel ⟨e0, i0⟩ (.ok fuel) = .ok ⟨fuel, fuel⟩
      ∧ persist_remaining_fuel ⟨fuel - consumed, fuel⟩ cf = cf consumed
      ∧ instantiate ⟨e0, i0⟩ (.ok fuel) consumed r1 cf
          = (⟨fuel - consumed, fuel⟩,
            match cf consumed with | .error e => .error e | .ok _ => r1)
      ∧ execute_operation ⟨e0, i0⟩ (.ok fuel) consumed r2 cf
          = (⟨fuel - consumed, fuel⟩,
            match cf consumed with | .error e => .error e | .ok _ => r2)
      ∧ execute_message ⟨e0, i0⟩ (.ok fuel) consumed r3 cf
          = (⟨fuel - consumed, fuel⟩,
            match cf consumed with | .error e => .error e | .ok _ => r3)
      ∧ finalize ⟨e0, i0⟩ (.ok fuel) consumed r4 cf
          = (⟨fuel - consumed, fuel⟩,
            match cf consumed with | .error e => .error e | .ok _ => r4) := by
  intro e0 i0 fuel consumed cf r1 r3 r4 r2 h
  have hconf : configure_initial_fuel ⟨e0, i0⟩ (.ok fuel) = .ok ⟨fuel, fuel⟩ := by
    unfold configure_initial_fuel
    dsimp only
    split
    · have h2 : e0 + 1 - (e0 + 1 - fuel) = fuel := by omega
      rw [h2]
    · have h2 : e0 + 1 + (fuel - (e0 + 1)) = fuel := by omega
      rw [h2]
  have hper : persist_remaining_fuel ⟨fuel - consumed, fuel⟩ cf = cf consumed := by
    unfold persist_remaining_fuel
    dsimp only
    rw [if_neg (show ¬ fuel < fuel - consumed from by omega)]
    have h2 : fuel - (fuel - consumed) = consumed := by omega
    rw [h2]
  refine ⟨hconf, hper, ?_, ?_, ?_, ?_⟩
  · unfold instantiate
    rw [hconf]
    dsimp only
    rw [hper]
    cases hcf : cf consumed with
    | error e => rfl
    | ok u => cases r1 <;> rfl
  · unfold execute_operation
    rw [hconf]
    dsimp only
    rw [hper]
    cases hcf : cf consumed with
    | error e => rfl
    | ok u => cases r2 <;> rfl
  · unfold execute_message
    rw [hconf]
    dsimp only
    rw [hper]
    cases hcf : cf consumed with
    | error e => rfl
    | ok u => cases r3 <;> rfl
  · unfold finalize
    rw [hconf]
    dsimp only
    rw [hper]
    cases hcf : cf consumed with
    | error e => rfl
    | ok u => cases r4 <;> rfl

/-- C9 witness: an engine starting with 5 fuel, a runtime reporting 10, and
an entrypoint consuming 3 — the engine is set to 10, ends at 7, and the
runtime is charged exactly 3. -/
theorem fuel_accounting_witness :
    instantiate ⟨5, 0⟩ (.ok 10) 3 (.ok ()) cfOk = (⟨7, 10⟩, .ok ()) :=
  (fuel_accounting 5 0 10 3 cfOk (.ok ()) (.ok ()) (.ok ()) (.ok 2) (by decide)).2.2.1

end Wasmtime
